import Mathlib

/-!
Verification of the stax monitoring engine'\x73 core against its specification.

The definitions below are shallow embeddings of the Python source:

* `detect_changes_in_epic` and the snapshot content hash (src/ado_client.py),
  including a full executable SHA-256 over UTF-8 bytes;
* `_calculate_content_hash` input construction (src/monitor.py);
* `_calculate_text_similarity` and `calculate_change_significance`
  (src/enhanced_monitor.py);
* `_analyze_story_changes` (src/agent.py);
* `_should_extract_stories_enhanced`, `_check_cooldown_period`, and the
  change-extraction counting discipline (src/enhanced_monitor.py, src/monitor.py);
* `estimate_tokens`, `record_usage` and `_update_stats` (src/token_tracker.py);
* `extract_test_cases`, `_parse_test_cases_response` and
  `_fallback_parse_test_cases` (src/test_case_extractor.py).

Machine reals (Python floats) are modelled as rationals; machine integers as
`Nat` with explicit wrap-around where the source relies on it.
-/

set_option maxRecDepth 100000

namespace Stax

/-! ## Generic helpers -/

/-- Iterate a function `n` times. -/
def iterApply {α : Type} (f : α → α) : Nat → α → α
  | 0, a => a
  | n + 1, a => iterApply f n (f a)

/-! ## Python string primitives

List-based models of the Python string operations the source uses.  (The
corresponding core `String` functions are written against byte positions and
do not reduce inside the kernel, so the embedding carries its own structural
versions.) -/

/-- Whether `needle` occurs at the start of `hay`. -/
def charsStartWith : List Char → List Char → Bool
  | [], _ => true
  | _ :: _, [] => false
  | a :: as, b :: bs => a = b && charsStartWith as bs

/-- Whether `needle` occurs anywhere inside `hay`. -/
def charsContain (needle : List Char) : List Char → Bool
  | [] => charsStartWith needle []
  | b :: bs => charsStartWith needle (b :: bs) || charsContain needle bs

/-- Python substring containment `needle in hay`. -/
def strContains (hay needle : String) : Bool := charsContain needle.data hay.data

/-- Python `c in text` for a single character. -/
def sContainsChar (s : String) (c : Char) : Bool := s.data.any (fun d => d = c)

/-- Python `str.lower` (ASCII case mapping, as in `Char.toLower`). -/
def sToLower (s : String) : String := String.mk (s.data.map Char.toLower)

/-- Python `str.strip`. -/
def sTrim (s : String) : String :=
  String.mk (((s.data.dropWhile Char.isWhitespace).reverse.dropWhile Char.isWhitespace).reverse)

/-- Python slicing `s[n:]`. -/
def sDrop (s : String) (n : Nat) : String := String.mk (s.data.drop n)

/-- Python slicing `s[:-n]`. -/
def sDropRight (s : String) (n : Nat) : String := String.mk (s.data.take (s.data.length - n))

/-- Python `str.startswith`. -/
def sStartsWith (s p : String) : Bool := charsStartWith p.data s.data

/-- Python `str.endswith`. -/
def sEndsWith (s p : String) : Bool := charsStartWith p.data.reverse s.data.reverse

/-- Python `sep.join`. -/
def sIntercalate (sep : String) : List String → String
  | [] => ""
  | [x] => x
  | x :: y :: xs => x ++ sep ++ sIntercalate sep (y :: xs)

/-- Accumulator loop for `str.split('\n')`. -/
def splitLinesGo : List Char → List Char → List String
  | acc, [] => [String.mk acc]
  | acc, c :: cs =>
    if c = '\n' then String.mk acc :: splitLinesGo [] cs
    else splitLinesGo (acc ++ [c]) cs

/-- Python `str.split('\n')`. -/
def sSplitLines (s : String) : List String := splitLinesGo [] s.data

/-- Accumulator loop for no-argument `str.split()`: whitespace runs separate
words, empty pieces never appear. -/
def splitWordsGo : List Char → List Char → List String
  | acc, [] => if acc = [] then [] else [String.mk acc]
  | acc, c :: cs =>
    if c.isWhitespace then
      if acc = [] then splitWordsGo [] cs
      else String.mk acc :: splitWordsGo [] cs
    else splitWordsGo (acc ++ [c]) cs

/-- Python no-argument `str.split()`. -/
def pySplitWs (s : String) : List String := splitWordsGo [] s.data

/-! ## SHA-256 over UTF-8 bytes

Executable model of Python `hashlib.sha256(text.encode()).hexdigest()` as used
by `ado_client.detect_changes_in_epic`.  Words are `Nat` reduced mod `2^32`. -/

/-- UTF-8 encoding of a single character, as a list of byte values. -/
def encodeCharUtf8 (c : Char) : List Nat :=
  let n := c.toNat
  if n < 128 then [n]
  else if n < 2048 then
    [192 ||| (n >>> 6), 128 ||| (n &&& 63)]
  else if n < 65536 then
    [224 ||| (n >>> 12), 128 ||| ((n >>> 6) &&& 63), 128 ||| (n &&& 63)]
  else
    [240 ||| (n >>> 18), 128 ||| ((n >>> 12) &&& 63),
     128 ||| ((n >>> 6) &&& 63), 128 ||| (n &&& 63)]

/-- UTF-8 bytes of a string (Python `text.encode()`). -/
def utf8Bytes (s : String) : List Nat :=
  (s.data.map encodeCharUtf8).flatten

/-- Reduce modulo `2^32`. -/
def w32 (x : Nat) : Nat := x % 4294967296

/-- Right rotation of a 32-bit word. -/
def rotr32 (n x : Nat) : Nat := w32 ((x >>> n) ||| (x <<< (32 - n)))

def sha256SmallSigma0 (x : Nat) : Nat := (rotr32 7 x) ^^^ (rotr32 18 x) ^^^ (x >>> 3)

def sha256SmallSigma1 (x : Nat) : Nat := (rotr32 17 x) ^^^ (rotr32 19 x) ^^^ (x >>> 10)

def sha256BigSigma0 (x : Nat) : Nat := (rotr32 2 x) ^^^ (rotr32 13 x) ^^^ (rotr32 22 x)

def sha256BigSigma1 (x : Nat) : Nat := (rotr32 6 x) ^^^ (rotr32 11 x) ^^^ (rotr32 25 x)

def sha256Ch (x y z : Nat) : Nat := (x &&& y) ^^^ ((x ^^^ 4294967295) &&& z)

def sha256Maj (x y z : Nat) : Nat := (x &&& y) ^^^ (x &&& z) ^^^ (y &&& z)

/-- The 64 SHA-256 round constants. -/
def sha256K : List Nat :=
  [1116352408, 1899447441, 3049323471, 3921009573, 961987163, 1508970993,
   2453635748, 2870763221, 3624381080, 310598401, 607225278, 1426881987,
   1925078388, 2162078206, 2614888103, 3248222580, 3835390401, 4022224774,
   264347078, 604807628, 770255983, 1249150122, 1555081692, 1996064986,
   2554220882, 2821834349, 2952996808, 3210313671, 3336571891, 3584528711,
   113926993, 338241895, 666307205, 773529912, 1294757372, 1396182291,
   1695183700, 1986661051, 2177026350, 2456956037, 2730485921, 2820302411,
   3259730800, 3345764771, 3516065817, 3600352804, 4094571909, 275423344,
   430227734, 506948616, 659060556, 883997877, 958139571, 1322822218,
   1537002063, 1747873779, 1955562222, 2024104815, 2227730452, 2361852424,
   2428436474, 2756734187, 3204031479, 3329325298]

/-- The SHA-256 initial hash value. -/
def sha256H0 : List Nat :=
  [1779033703, 3144134277, 1013904242, 2773480762, 1359893119, 2600822924, 528734635, 1541459225]

/-- One message-schedule extension step: append `W[t]` for `t = length`. -/
def sha256StepW (w : List Nat) : List Nat :=
  let t := w.length
  w ++ [w32 (sha256SmallSigma1 (w.getD (t - 2) 0) + w.getD (t - 7) 0 +
             sha256SmallSigma0 (w.getD (t - 15) 0) + w.getD (t - 16) 0)]

/-- Working state of the SHA-256 compression loop. -/
structure Sha256State where
  a : Nat
  b : Nat
  c : Nat
  d : Nat
  e : Nat
  f : Nat
  g : Nat
  h : Nat

/-- One round of the SHA-256 compression loop. -/
def sha256Round (s : Sha256State) (wk : Nat × Nat) : Sha256State :=
  let t1 := w32 (s.h + sha256BigSigma1 s.e + sha256Ch s.e s.f s.g + wk.2 + wk.1)
  let t2 := w32 (sha256BigSigma0 s.a + sha256Maj s.a s.b s.c)
  ⟨w32 (t1 + t2), s.a, s.b, s.c, w32 (s.d + t1), s.e, s.f, s.g⟩

/-- Compress one 16-word block into the running hash value. -/
def sha256CompressBlock (h : List Nat) (block : List Nat) : List Nat :=
  let w := iterApply sha256StepW 48 block
  let s0 : Sha256State :=
    ⟨h.getD 0 0, h.getD 1 0, h.getD 2 0, h.getD 3 0,
     h.getD 4 0, h.getD 5 0, h.getD 6 0, h.getD 7 0⟩
  let s := (w.zip sha256K).foldl sha256Round s0
  [w32 (h.getD 0 0 + s.a), w32 (h.getD 1 0 + s.b), w32 (h.getD 2 0 + s.c),
   w32 (h.getD 3 0 + s.d), w32 (h.getD 4 0 + s.e), w32 (h.getD 5 0 + s.f),
   w32 (h.getD 6 0 + s.g), w32 (h.getD 7 0 + s.h)]

/-- Big-endian 8-byte encoding of a length in bits. -/
def be64 (n : Nat) : List Nat :=
  [(n >>> 56) &&& 255, (n >>> 48) &&& 255, (n >>> 40) &&& 255, (n >>> 32) &&& 255,
   (n >>> 24) &&& 255, (n >>> 16) &&& 255, (n >>> 8) &&& 255, n &&& 255]

/-- SHA-256 padding: a `0x80` byte, zeros to 56 mod 64, then the bit length. -/
def sha256Pad (msg : List Nat) : List Nat :=
  let l := msg.length
  msg ++ [128] ++ List.replicate ((119 - l % 64) % 64) 0 ++ be64 (8 * l)

/-- Split a byte list into 64-byte chunks (fuel-indexed structural recursion;
`fuel = l.length` always suffices since every step consumes 64 > 0 bytes). -/
def chunk64Go : Nat → List Nat → List (List Nat)
  | 0, _ => []
  | _, [] => []
  | fuel + 1, l => l.take 64 :: chunk64Go fuel (l.drop 64)

/-- Split a byte list into 64-byte chunks. -/
def chunk64 (l : List Nat) : List (List Nat) :=
  chunk64Go l.length l

/-- Group bytes four at a time into big-endian 32-bit words. -/
def bytesToWords : List Nat → List Nat
  | b0 :: b1 :: b2 :: b3 :: rest =>
      ((b0 <<< 24) ||| (b1 <<< 16) ||| (b2 <<< 8) ||| b3) :: bytesToWords rest
  | _ => []

/-- Lowercase hexadecimal digit for a value below 16. -/
def hexDigit (n : Nat) : Char :=
  if n < 10 then Char.ofNat (48 + n) else Char.ofNat (87 + n)

/-- Lowercase hexadecimal rendering of a 32-bit word. -/
def word32ToHex (x : Nat) : List Char :=
  [hexDigit ((x >>> 28) &&& 15), hexDigit ((x >>> 24) &&& 15),
   hexDigit ((x >>> 20) &&& 15), hexDigit ((x >>> 16) &&& 15),
   hexDigit ((x >>> 12) &&& 15), hexDigit ((x >>> 8) &&& 15),
   hexDigit ((x >>> 4) &&& 15), hexDigit (x &&& 15)]

/-- Full SHA-256 hex digest of a string'\x73 UTF-8 bytes: the model of Python
`hashlib.sha256(text.encode()).hexdigest()`. -/
def sha256Hex (s : String) : String :=
  let blocks := (chunk64 (sha256Pad (utf8Bytes s))).map bytesToWords
  String.mk (((blocks.foldl sha256CompressBlock sha256H0).map word32ToHex).flatten)

/-! ## Snapshots and content hashes (src/ado_client.py, src/agent.py, src/monitor.py) -/

/-- Fields of an ADO work item as fetched by `detect_changes_in_epic`
(System.Title, System.Description, System.State, System.ChangedDate).
`none` models an absent key, so that `fields.get(key, default)` becomes
`(field).getD default`. -/
structure WorkItemFields where
  title : Option String := none
  description : Option String := none
  state : Option String := none
  changedDate : Option String := none
deriving DecidableEq, Repr

/-- Snapshot record returned by `ado_client.detect_changes_in_epic`. -/
structure RequirementSnapshot where
  title : String
  description : String
  state : String
  last_modified : String
  content_hash : String
deriving DecidableEq, Repr

/-- Model of `ado_client.detect_changes_in_epic`: the content hash is
`hashlib.sha256((title + description).encode()).hexdigest()` — built from the
title and description only. -/
def detect_changes_in_epic (fields : WorkItemFields) : RequirementSnapshot :=
  let title := fields.title.getD ""
  let description := fields.description.getD ""
  { title := title
    description := description
    state := fields.state.getD ""
    last_modified := fields.changedDate.getD "2000-01-01T00:00:00.000Z"
    content_hash := sha256Hex (title ++ description) }

/-- Snapshot dictionary as passed around by the monitors.  `none` models an
absent key, so Python `snapshot.get(key, "")` becomes `(field).getD ""`. -/
structure SnapshotDict where
  content_hash : Option String := none
  last_modified : Option String := none
  title : Option String := none
  description : Option String := none
  state : Option String := none
  priority : Option String := none
  area_path : Option String := none
  iteration_path : Option String := none
deriving DecidableEq, Repr

/-- Model of `agent.get_epic_snapshot`: builds the snapshot dictionary from a
`detect_changes_in_epic` result with exactly the keys `content_hash`,
`last_modified`, `title` and `state` — no description, priority, area or
iteration keys. -/
def get_epic_snapshot (snapshot : RequirementSnapshot) : SnapshotDict :=
  { content_hash := some snapshot.content_hash
    last_modified := some snapshot.last_modified
    title := some snapshot.title
    state := some snapshot.state }

/-- The exact string that `monitor._calculate_content_hash` feeds to MD5: the
six fields title, description, state, priority, area_path, iteration_path
joined with "|".  (The source returns the MD5 hex digest of this string; the
digest function itself adds nothing to the claims, which are about the fields
that feed the hash.) -/
def calculate_content_hash_input (snapshot : SnapshotDict) : String :=
  sIntercalate "|"
    [snapshot.title.getD "", snapshot.description.getD "", snapshot.state.getD "",
     snapshot.priority.getD "", snapshot.area_path.getD "", snapshot.iteration_path.getD ""]

/-! ## Text similarity and change significance (src/enhanced_monitor.py) -/

/-- Words of a text: lowercased, split on whitespace, empty pieces dropped, as
a finite set.  Mirrors `set(text.lower().split())`. -/
def wordSet (text : String) : Finset String :=
  (pySplitWs (sToLower text)).toFinset

/-- The word-set half of `_calculate_text_similarity`, factored over the two
word sets `words1 = set(text1.lower().split())` and `words2`: the guards for
empty word sets, then `len(intersection) / len(union)` guarded by a nonempty
union. -/
def jaccardSimilarity (words1 words2 : Finset String) : ℚ :=
  if words1 = ∅ ∧ words2 = ∅ then 1
  else if words1 = ∅ ∨ words2 = ∅ then 0
  else if words1 ∪ words2 ≠ ∅ then
    ((words1 ∩ words2).card : ℚ) / ((words1 ∪ words2).card : ℚ)
  else 0

/-- Model of `EnhancedEpicChangeMonitor._calculate_text_similarity`: word-level
Jaccard similarity with special cases for empty inputs. -/
def calculate_text_similarity (text1 text2 : String) : ℚ :=
  if text1 = "" ∧ text2 = "" then 1
  else if text1 = "" ∨ text2 = "" then 0
  else jaccardSimilarity (wordSet text1) (wordSet text2)

/-- Configuration fields of `EnhancedMonitorConfig` (and the inherited
`MonitorConfig` fields) that the embedded functions consult, with the source
defaults. -/
structure EnhancedMonitorConfig where
  enable_change_based_extraction : Bool := true
  change_significance_threshold : ℚ := 0.3
  max_changes_per_epic : Nat := 5
  manual_override_enabled : Bool := true
  title_change_weight : ℚ := 0.8
  description_change_weight : ℚ := 0.6
  state_change_weight : ℚ := 0.2
  skip_duplicate_check : Bool := false
  extraction_cooldown_hours : Nat := 24
deriving DecidableEq, Repr

/-- Model of `EnhancedEpicChangeMonitor.calculate_change_significance`
(the returned score; the change-history bookkeeping mutates monitor state and
does not affect the score).  A missing previous snapshot scores 1.0; otherwise
title and description contribute `(1 - similarity) * weight` when they differ,
a state change contributes `state_change_weight`, and the sum is capped at 1. -/
def calculate_change_significance (config : EnhancedMonitorConfig)
    (current_snapshot : SnapshotDict) (previous_snapshot : Option SnapshotDict) : ℚ :=
  match previous_snapshot with
  | none => 1
  | some prev =>
    let current_title := current_snapshot.title.getD ""
    let previous_title := prev.title.getD ""
    let sig1 : ℚ :=
      if current_title ≠ previous_title then
        (1 - calculate_text_similarity current_title previous_title) * config.title_change_weight
      else 0
    let current_desc := current_snapshot.description.getD ""
    let previous_desc := prev.description.getD ""
    let sig2 : ℚ :=
      if current_desc ≠ previous_desc then
        sig1 + (1 - calculate_text_similarity current_desc previous_desc) *
          config.description_change_weight
      else sig1
    let current_state := current_snapshot.state.getD ""
    let previous_state := prev.state.getD ""
    let sig3 : ℚ :=
      if current_state ≠ previous_state then sig2 + config.state_change_weight else sig2
    min sig3 1

/-! ## Story reconciliation (src/agent.py `_analyze_story_changes`) -/

/-- Existing child story as read from the tracker. -/
structure ExistingUserStory where
  id : Nat
  title : String
  description : String
deriving DecidableEq, Repr

/-- Proposed story produced by the generator. -/
structure ProposedStory where
  heading : String
  description : String
  acceptance_criteria : List String
deriving DecidableEq, Repr

/-- Insertion into an insertion-ordered association list with Python dict
semantics: an existing key keeps its position and receives the new value, a
new key goes to the back. -/
def dictInsert (m : List (String × ExistingUserStory)) (k : String)
    (v : ExistingUserStory) : List (String × ExistingUserStory) :=
  if m.any (fun p => p.1 = k) then m.map (fun p => if p.1 = k then (k, v) else p)
  else m ++ [(k, v)]

/-- Python `{story.title: story for story in existing_stories}`. -/
def existingByTitle (existing : List ExistingUserStory) :
    List (String × ExistingUserStory) :=
  existing.foldl (fun m s => dictInsert m s.title s) []

/-- Removal of the entry with the given key (Python `del`). -/
def dictErase (m : List (String × ExistingUserStory)) (k : String) :
    List (String × ExistingUserStory) :=
  m.filter (fun p => p.1 ≠ k)

/-- One iteration of the best-match scan of `_analyze_story_changes`: an entry
is adopted whenever the similarity of the lowered new heading and the lowered
existing title strictly improves on the running best. -/
def bestMatchStep (ratio : String → String → ℚ) (heading : String)
    (best : Option ExistingUserStory × ℚ) (p : String × ExistingUserStory) :
    Option ExistingUserStory × ℚ :=
  let similarity := ratio (sToLower heading) (sToLower p.1)
  if similarity > best.2 then (some p.2, similarity) else best

/-- The best-match scan of `_analyze_story_changes`: iterate the remaining
entries in order starting from `(None, 0.0)`.  The similarity oracle `ratio`
stands for `difflib.SequenceMatcher(None, a, b).ratio()`. -/
def findBestMatch (ratio : String → String → ℚ) (heading : String)
    (m : List (String × ExistingUserStory)) : Option ExistingUserStory × ℚ :=
  m.foldl (bestMatchStep ratio heading) (none, 0)

/-- Existing-side content compared by `_analyze_story_changes`. -/
def existingContent (e : ExistingUserStory) : String := e.title ++ " " ++ e.description

/-- Proposed-side content compared by `_analyze_story_changes`. -/
def newContent (p : ProposedStory) : String :=
  p.heading ++ " " ++ p.description ++ " " ++ sIntercalate " " p.acceptance_criteria

/-- Accumulated result of the reconciliation loop. -/
structure AnalyzeResult where
  stories_to_create : List ProposedStory
  stories_to_update : List (ExistingUserStory × ProposedStory)
  unchanged_matched : List ExistingUserStory
  remaining : List (String × ExistingUserStory)
deriving DecidableEq, Repr

/-- The per-proposed-story loop of `_analyze_story_changes`: a proposed story
with best title similarity above 0.8 is an update (content similarity below
0.9) or unchanged (otherwise) and consumes its matched entry; any other
proposed story is a create. -/
def analyzeGo (ratio : String → String → ℚ) :
    List (String × ExistingUserStory) → List ProposedStory → AnalyzeResult
  | m, [] => ⟨[], [], [], m⟩
  | m, new_story :: rest =>
    let best := findBestMatch ratio new_story.heading m
    match best.1 with
    | some best_match =>
      if best.2 > 0.8 then
        let content_similarity :=
          ratio (sToLower (existingContent best_match)) (sToLower (newContent new_story))
        if content_similarity < 0.9 then
          let r := analyzeGo ratio (dictErase m best_match.title) rest
          { r with stories_to_update := (best_match, new_story) :: r.stories_to_update }
        else
          let r := analyzeGo ratio (dictErase m best_match.title) rest
          { r with unchanged_matched := best_match :: r.unchanged_matched }
      else
        let r := analyzeGo ratio m rest
        { r with stories_to_create := new_story :: r.stories_to_create }
    | none =>
      let r := analyzeGo ratio m rest
      { r with stories_to_create := new_story :: r.stories_to_create }

/-- Model of `StoryExtractionAgent._analyze_story_changes`: returns
`(stories_to_create, stories_to_update, unchanged_stories)`, where the
unmatched remainder of the title map is appended to the unchanged list. -/
def analyze_story_changes (ratio : String → String → ℚ)
    (existing_stories : List ExistingUserStory) (new_stories : List ProposedStory) :
    List ProposedStory × List (ExistingUserStory × ProposedStory) × List ExistingUserStory :=
  let r := analyzeGo ratio (existingByTitle existing_stories) new_stories
  (r.stories_to_create, r.stories_to_update,
   r.unchanged_matched ++ r.remaining.map (fun p => p.2))

/-! ## Extraction gating and counting (src/enhanced_monitor.py, src/monitor.py) -/

/-- The fields of `EnhancedEpicState` consulted by the gating and counting
logic, plus membership of the processed-items set for the current requirement
type and the timestamp (in seconds) of the last sync result. -/
structure EnhancedEpicState where
  stories_extracted : Bool := false
  change_extraction_count : Nat := 0
  processed : Bool := false
  last_sync_timestamp : Option ℚ := none
deriving DecidableEq, Repr

/-- Model of `EnhancedEpicChangeMonitor._should_extract_stories_enhanced`.
Note that no branch of this function consults any cooldown clock. -/
def should_extract_stories_enhanced (config : EnhancedMonitorConfig)
    (state : Option EnhancedEpicState) (change_significance : ℚ) : Bool :=
  match state with
  | none => false
  | some state =>
    if !config.enable_change_based_extraction then
      if state.stories_extracted then false
      else config.skip_duplicate_check || !state.processed
    else if !state.stories_extracted && !state.processed then true
    else if state.stories_extracted then
      if state.change_extraction_count ≥ config.max_changes_per_epic then false
      else if change_significance ≥ config.change_significance_threshold then true
      else false
    else config.skip_duplicate_check || !state.processed

/-- Model of `EpicChangeMonitor._check_cooldown_period` (base monitor): true
when extraction is allowed, false while inside the cooldown window measured
against `last_sync_result['timestamp']`.  Timestamps are in seconds. -/
def check_cooldown_period (state : Option EnhancedEpicState) (now : ℚ)
    (hours : Nat) : Bool :=
  match state with
  | none => true
  | some state =>
    match state.last_sync_timestamp with
    | none => true
    | some last_sync => if now - last_sync < (hours : ℚ) * 3600 then false else true

/-- Environment outcome of one `_sync_epic_enhanced` call: whether the sync
reported success, and whether it created or updated any stories. -/
structure SyncOutcome where
  sync_successful : Bool
  made_changes : Bool
deriving DecidableEq, Repr

/-- State effect of `_sync_epic_enhanced` (snapshot and sync-result
bookkeeping aside): on a successful sync that created or updated stories the
epic is marked processed, `stories_extracted` is set, and — when the sync was
change-based — `change_extraction_count` is incremented. -/
def sync_epic_enhanced (state : EnhancedEpicState) (is_change_based : Bool)
    (outcome : SyncOutcome) : EnhancedEpicState :=
  if outcome.sync_successful ∧ outcome.made_changes then
    { state with
      stories_extracted := true
      processed := true
      change_extraction_count :=
        state.change_extraction_count + (if is_change_based then 1 else 0) }
  else state

/-- One scheduler-visible operation on a monitored epic: a scheduled change
check (`check_and_extract_if_changed`) with its environment-determined
significance and sync outcome, or a manual `force_re_extraction`. -/
inductive EpicOp where
  | check (has_changes : Bool) (significance : ℚ) (outcome : SyncOutcome)
  | force (outcome : SyncOutcome)
deriving DecidableEq

/-- Whether an operation is a scheduled check (as opposed to a manual force
re-extraction). -/
def EpicOp.isCheck : EpicOp → Bool
  | .check _ _ _ => true
  | .force _ => false

/-- Model of `check_and_extract_if_changed` (dispatch gated by
`_should_extract_stories_enhanced`, sync always change-based) and of
`force_re_extraction` (manual override: dispatches a change-based sync with no
gate whenever `manual_override_enabled`). -/
def run_epic_op (config : EnhancedMonitorConfig) (state : EnhancedEpicState) :
    EpicOp → EnhancedEpicState
  | .check has_changes significance outcome =>
    if has_changes &&
        should_extract_stories_enhanced config (some state) significance then
      sync_epic_enhanced state true outcome
    else state
  | .force outcome =>
    if config.manual_override_enabled then sync_epic_enhanced state true outcome
    else state

/-- Run a sequence of operations against one epic state. -/
def run_epic_ops (config : EnhancedMonitorConfig) (state : EnhancedEpicState)
    (ops : List EpicOp) : EnhancedEpicState :=
  ops.foldl (run_epic_op config) state

/-! ## Token tracking (src/token_tracker.py) -/

/-- Model of `TokenTracker.estimate_tokens`: empty text gives 0; JSON-looking
text (containing a brace or bracket) divides the character count by 3, other
text by 4, floored at 1.  Python `//` is `Nat` division. -/
def estimate_tokens (text : String) : Nat :=
  if text = "" then 0
  else if sContainsChar text '\x7b' ∨ sContainsChar text '[' then max 1 (text.length / 3)
  else max 1 (text.length / 4)

/-- The measured TOON reduction factor `TOON_REDUCTION_FACTOR = 0.571`. -/
def TOON_REDUCTION_FACTOR : ℚ := 0.571

/-- Record of token usage for a single AI call (the wall-clock timestamp is
omitted from the model). -/
structure TokenUsageRecord where
  call_type : String
  prompt_tokens : Nat
  completion_tokens : Nat
  total_tokens : Nat
  toon_enabled : Bool
  estimated_standard_tokens : Nat
  tokens_saved : Nat
  reduction_percentage : ℚ
  model : String
  provider : String
  success : Bool
  error_message : String := ""
  story_id : String := ""
  story_title : String := ""
deriving DecidableEq, Repr

/-- The record built by `TokenTracker.record_usage`.  `int(x)` on the
non-negative quotient is the floor. -/
def record_usage_record (call_type : String) (prompt_text response_text : String)
    (toon_enabled : Bool) (model provider : String) (success : Bool) :
    TokenUsageRecord :=
  let prompt_tokens := estimate_tokens prompt_text
  let completion_tokens := estimate_tokens response_text
  let total_tokens := prompt_tokens + completion_tokens
  let estimated_standard_tokens :=
    if toon_enabled then ⌊(prompt_tokens : ℚ) / (1 - TOON_REDUCTION_FACTOR)⌋₊
    else prompt_tokens
  let tokens_saved :=
    if toon_enabled then estimated_standard_tokens - prompt_tokens else 0
  let reduction_percentage : ℚ :=
    if toon_enabled then TOON_REDUCTION_FACTOR * 100 else 0
  { call_type := call_type
    prompt_tokens := prompt_tokens
    completion_tokens := completion_tokens
    total_tokens := total_tokens
    toon_enabled := toon_enabled
    estimated_standard_tokens := estimated_standard_tokens
    tokens_saved := tokens_saved
    reduction_percentage := reduction_percentage
    model := model
    provider := provider
    success := success }

/-- Aggregated token usage statistics (`TokenUsageStats`). -/
structure TokenUsageStats where
  total_calls : Nat := 0
  successful_calls : Nat := 0
  failed_calls : Nat := 0
  total_prompt_tokens : Nat := 0
  total_completion_tokens : Nat := 0
  total_tokens : Nat := 0
  total_tokens_saved : Nat := 0
  average_reduction_percentage : ℚ := 0
  estimated_cost_usd : ℚ := 0
  estimated_savings_usd : ℚ := 0
  calls_with_toon : Nat := 0
  calls_without_toon : Nat := 0
  story_extractions : Nat := 0
  test_case_extractions : Nat := 0
  estimated_tokens_without_toon : Nat := 0
  estimated_cost_without_toon_usd : ℚ := 0
deriving DecidableEq, Repr

/-- The `TOKEN_COSTS` table in dict insertion order: `(name, input, output)`
in USD per 1K tokens. -/
def TOKEN_COSTS : List (String × ℚ × ℚ) :=
  [("gpt-4", 0.03, 0.06), ("gpt-4-turbo", 0.01, 0.03), ("gpt-4o", 0.005, 0.015),
   ("gpt-4o-mini", 0.00015, 0.0006), ("gpt-3.5-turbo", 0.0005, 0.0015),
   ("gpt-35-turbo", 0.0005, 0.0015)]

/-- Cost-tier lookup of `_update_cost_estimates`: the first table entry whose
name is a substring of the lowercased model name; unknown models fall back to
the gpt-4 tier. -/
def findCostTier (model : String) : ℚ × ℚ :=
  match TOKEN_COSTS.find? (fun t => strContains (sToLower model) t.1) with
  | some t => t.2
  | none => (0.03, 0.06)

/-- Model of `TokenTracker._update_cost_estimates`. -/
def update_cost_estimates (stats : TokenUsageStats) (record : TokenUsageRecord) :
    TokenUsageStats :=
  let cost := findCostTier record.model
  let input_cost := ((record.prompt_tokens : ℚ) / 1000) * cost.1
  let output_cost := ((record.completion_tokens : ℚ) / 1000) * cost.2
  let stats1 := { stats with
    estimated_cost_usd := stats.estimated_cost_usd + (input_cost + output_cost) }
  let input_cost_without_toon := ((record.estimated_standard_tokens : ℚ) / 1000) * cost.1
  let stats2 := { stats1 with
    estimated_cost_without_toon_usd :=
      stats1.estimated_cost_without_toon_usd + (input_cost_without_toon + output_cost) }
  if record.toon_enabled ∧ record.tokens_saved > 0 then
    { stats2 with
      estimated_savings_usd :=
        stats2.estimated_savings_usd + ((record.tokens_saved : ℚ) / 1000) * cost.1 }
  else stats2

/-- Model of `TokenTracker._update_stats`.  `records` is the ring buffer as it
stands after the new record was appended (the source reads `self.records` when
recomputing the TOON average). -/
def update_stats (stats : TokenUsageStats) (records : List TokenUsageRecord)
    (record : TokenUsageRecord) : TokenUsageStats :=
  let s1 := { stats with total_calls := stats.total_calls + 1 }
  let s2 :=
    if record.success then { s1 with successful_calls := s1.successful_calls + 1 }
    else { s1 with failed_calls := s1.failed_calls + 1 }
  let s3 := { s2 with
    total_prompt_tokens := s2.total_prompt_tokens + record.prompt_tokens
    total_completion_tokens := s2.total_completion_tokens + record.completion_tokens
    total_tokens := s2.total_tokens + record.total_tokens
    total_tokens_saved := s2.total_tokens_saved + record.tokens_saved
    estimated_tokens_without_toon := s2.estimated_tokens_without_toon +
      (record.estimated_standard_tokens + record.completion_tokens) }
  let s4 :=
    if record.toon_enabled then { s3 with calls_with_toon := s3.calls_with_toon + 1 }
    else { s3 with calls_without_toon := s3.calls_without_toon + 1 }
  let s5 :=
    if record.call_type = "story_extraction" then
      { s4 with story_extractions := s4.story_extractions + 1 }
    else if record.call_type = "test_case_extraction" then
      { s4 with test_case_extractions := s4.test_case_extractions + 1 }
    else s4
  let s6 :=
    if s5.calls_with_toon > 0 then
      let toon_records := records.filter (fun r => r.toon_enabled)
      if toon_records ≠ [] then
        { s5 with
          average_reduction_percentage :=
            (toon_records.map (fun r => r.reduction_percentage)).sum /
              (toon_records.length : ℚ) }
      else s5
    else s5
  update_cost_estimates s6 record

/-- In-memory state of the tracker: the ring buffer and the aggregates. -/
structure TokenTrackerState where
  records : List TokenUsageRecord := []
  stats : TokenUsageStats := {}
deriving DecidableEq, Repr

/-- Ring-buffer append with `deque(maxlen=1000)` semantics: once 1000 records
are retained, appending evicts the oldest. -/
def ringAppend (records : List TokenUsageRecord) (r : TokenUsageRecord) :
    List TokenUsageRecord :=
  let appended := records ++ [r]
  if appended.length > 1000 then appended.drop (appended.length - 1000) else appended

/-- Model of `TokenTracker.record_usage`: build the record, append it to the
ring buffer, and update the aggregate statistics. -/
def record_usage (st : TokenTrackerState) (call_type : String)
    (prompt_text response_text : String) (toon_enabled : Bool)
    (model provider : String) (success : Bool) : TokenTrackerState :=
  let record :=
    record_usage_record call_type prompt_text response_text toon_enabled model provider success
  let records := ringAppend st.records record
  { records := records, stats := update_stats st.stats records record }

/-! ## Test-case response parsing (src/test_case_extractor.py) -/

/-- Test case record built by the extractor. -/
structure TestCase where
  title : String
  description : String
  test_type : String
  test_steps : List String
  expected_result : String
  preconditions : List String
  priority : String
  parent_story_id : Option String := none
deriving DecidableEq, Repr

/-- Characters of the regex class `[:\-\s]`. -/
def sepClassChar (c : Char) : Bool := c = ':' || c = '-' || c.isWhitespace

/-- Case-insensitive literal match of a lowercase keyword; returns the
remainder after the keyword. -/
def matchCI : List Char → List Char → Option (List Char)
  | [], rest => some rest
  | _ :: _, [] => none
  | k :: ks, c :: cs => if c.toLower = k then matchCI ks cs else none

/-- Case-sensitive literal match; returns the remainder. -/
def matchExact : List Char → List Char → Option (List Char)
  | [], rest => some rest
  | _ :: _, [] => none
  | k :: ks, c :: cs => if c = k then matchExact ks cs else none

/-- Regex alternative `test\s*case` (case-insensitive, greedy gap). -/
def matchTestCaseKw (cs : List Char) : Option (List Char) :=
  match matchCI ['t', 'e', 's', 't'] cs with
  | none => none
  | some rest => matchCI ['c', 'a', 's', 'e'] (rest.dropWhile Char.isWhitespace)

/-- Regex alternative `title` (case-insensitive). -/
def matchTitleKw (cs : List Char) : Option (List Char) :=
  matchCI ['t', 'i', 't', 'l', 'e'] cs

/-- Regex alternative `tc\s*\d+` (case-insensitive). -/
def matchTcNumKw (cs : List Char) : Option (List Char) :=
  match matchCI ['t', 'c'] cs with
  | none => none
  | some rest =>
    let rest2 := rest.dropWhile Char.isWhitespace
    match rest2 with
    | c :: _ => if c.isDigit then some (rest2.dropWhile Char.isDigit) else none
    | [] => none

/-- The keyword alternation `(?:test\s*case|title|tc\s*\d+)` in regex order
(at any one position at most one alternative can match, as the alternatives
diverge within their first two characters). -/
def matchKeywordAt (cs : List Char) : Option (List Char) :=
  match matchTestCaseKw cs with
  | some r => some r
  | none =>
    match matchTitleKw cs with
    | some r => some r
    | none => matchTcNumKw cs

/-- Capture attempt at offset `k`: succeeds when a non-newline character
stands there, capturing up to the next newline. -/
def capAt (rem : List Char) (k : Nat) : Option (List Char × List Char) :=
  match rem.drop k with
  | c :: _ =>
    if c ≠ '\n' then
      some ((rem.drop k).takeWhile (fun d => d ≠ '\n'),
            (rem.drop k).dropWhile (fun d => d ≠ '\n'))
    else none
  | [] => none

/-- Backtracking for `[:\-\s]*([^\n]+)`: shorten the separator run until a
non-newline character can start the capture. -/
def capBacktrack (rem : List Char) : Nat → Option (List Char × List Char)
  | 0 => capAt rem 0
  | k + 1 =>
    match capAt rem (k + 1) with
    | some r => some r
    | none => capBacktrack rem k

/-- Match `[:\-\s]*([^\n]+)` at the start of `rem` with greedy semantics:
the longest separator run that still leaves at least one non-newline character
to capture; the capture then runs to the next newline.  Returns the capture
and the remainder, or `none` when nothing can be captured. -/
def capExtract (rem : List Char) : Option (List Char × List Char) :=
  capBacktrack rem (rem.takeWhile sepClassChar).length

/-- Left-to-right non-overlapping scan of `re.findall` for
`(?i)(?:test\s*case|title|tc\s*\d+)[:\-\s]*([^\n]+)`; a successful match
resumes after its capture.  Fuel-indexed structural recursion: the initial
character count always suffices since every step consumes at least one
character. -/
def findTitleMatchesGo : Nat → List Char → List String
  | 0, _ => []
  | _, [] => []
  | fuel + 1, cs@(_ :: rest) =>
    match matchKeywordAt cs with
    | some afterKw =>
      match capExtract afterKw with
      | some (cap, after) => String.mk cap :: findTitleMatchesGo fuel after
      | none => findTitleMatchesGo fuel rest
    | none => findTitleMatchesGo fuel rest

/-- Strategy 1 of `_fallback_parse_test_cases`: all regex captures. -/
def findTitleMatches (content : String) : List String :=
  findTitleMatchesGo content.data.length content.data

/-- Test case built from a strategy-1 regex capture. -/
def mkStrategy1TC (i : Nat) (title : String) : TestCase :=
  { title := sTrim title
    description := "Generated from AI response - Test case " ++ toString (i + 1)
    test_type := "positive"
    test_steps := ["Execute test scenario: " ++ sTrim title]
    expected_result := "System behaves as expected."
    preconditions := ["System is available and accessible"]
    priority := "Medium" }

/-- Line keywords that start a new test in strategy 2. -/
def lineKeywordList : List String := ["title:", "test:", "tc", "1.", "2.", "3.", "4.", "5."]

/-- Markers stripped from a strategy-2 title (first hit wins). -/
def cleanupMarkerList : List String := ["Title:", "Test:", "TC", "1.", "2.", "3.", "4.", "5."]

/-- Strategy-2 title cleanup. -/
def cleanupTitle (line : String) : String :=
  match cleanupMarkerList.find? (fun p => sStartsWith line p) with
  | some p => sTrim (sDrop line p.length)
  | none => line

/-- Fresh test case opened by strategy 2. -/
def mkStrategy2TC (title : String) : TestCase :=
  { title := title
    description := "Parsed from AI response"
    test_type := "positive"
    test_steps := []
    expected_result := "System behaves as expected."
    preconditions := ["System is available"]
    priority := "Medium" }

/-- One line of the strategy-2 loop; the accumulator is the closed tests plus
the test currently being filled. -/
def strategy2Step (acc : List TestCase × Option TestCase) (line0 : String) :
    List TestCase × Option TestCase :=
  let line := sTrim line0
  if line = "" then acc
  else if lineKeywordList.any (fun kw => strContains (sToLower line) kw) then
    let tests :=
      match acc.2 with
      | some t => acc.1 ++ [t]
      | none => acc.1
    let title0 := cleanupTitle line
    let title := if title0 = "" then "Test Case " ++ toString (tests.length + 1) else title0
    (tests, some (mkStrategy2TC title))
  else
    match acc.2 with
    | none => acc
    | some t =>
      if sStartsWith line "Steps:" || sStartsWith line "Expected:" ||
          sStartsWith line "Description:" then acc
      else if sStartsWith line "-" || sStartsWith line "•" || sStartsWith line "*" then
        (acc.1, some { t with test_steps := t.test_steps ++ [sTrim (sDrop line 1)] })
      else if t.test_steps.length < 5 then
        (acc.1, some { t with test_steps := t.test_steps ++ [line] })
      else acc

/-- Strategy 2 of `_fallback_parse_test_cases`: simple line-based parsing. -/
def fallbackStrategy2 (content : String) : List TestCase :=
  let r := (sSplitLines content).foldl strategy2Step ([], none)
  match r.2 with
  | some t => r.1 ++ [t]
  | none => r.1

/-- The generic test case of strategy 3, emitted when no test case could be
parsed from the text. -/
def genericFallbackTestCase : TestCase :=
  { title := "Validate User Story Functionality"
    description := "Generic test case created when AI response could not be parsed"
    test_type := "positive"
    test_steps := ["1. Review the user story requirements",
                   "2. Execute the main functionality",
                   "3. Verify the expected behavior",
                   "4. Validate any acceptance criteria"]
    expected_result := "All functionality works as expected according to the user story."
    preconditions := ["System is available and properly configured"]
    priority := "Medium" }

/-- Model of `TestCaseExtractor._fallback_parse_test_cases`: the regex
strategy (first ten captures), then the line strategy, then exactly one
generic test case. -/
def fallback_parse_test_cases (content : String) : List TestCase :=
  let titles := findTitleMatches content
  if titles ≠ [] then (titles.take 10).enum.map (fun p => mkStrategy1TC p.1 p.2)
  else
    let cases := fallbackStrategy2 content
    if cases ≠ [] then cases else [genericFallbackTestCase]

/-- Code-fence stripping of `_parse_test_cases_response`: strip, drop a
leading "```json", drop a trailing "```". -/
def stripCodeFences (content0 : String) : String :=
  let content1 := sTrim content0
  let content2 := if sStartsWith content1 "```json" then sDrop content1 7 else content1
  if sEndsWith content2 "```" then sDropRight content2 3 else content2

/-- Match the literal JavaScript pattern `"a".repeat(<digits>)`; returns the
remainder after the closing parenthesis. -/
def matchRepeatAt (cs : List Char) : Option (List Char) :=
  match matchExact ['"', 'a', '"', '.', 'r', 'e', 'p', 'e', 'a', 't', '('] cs with
  | none => none
  | some rest =>
    match rest with
    | d :: _ =>
      if d.isDigit then
        match rest.dropWhile Char.isDigit with
        | ')' :: rest2 => some rest2
        | _ => none
      else none
    | [] => none

/-- Substitution scan replacing `"a".repeat(<digits>)` by `"a" * 255`
(fuel-indexed; the character count suffices). -/
def fixRepeatGo : Nat → List Char → List Char
  | 0, cs => cs
  | _, [] => []
  | fuel + 1, c :: cs =>
    match matchRepeatAt (c :: cs) with
    | some rest =>
        ['"', 'a', '"', ' ', '*', ' ', '2', '5', '5'] ++ fixRepeatGo fuel rest
    | none => c :: fixRepeatGo fuel cs

/-- The first regex substitution of `_parse_test_cases_response`. -/
def fixRepeatPattern (content : String) : String :=
  String.mk (fixRepeatGo content.data.length content.data)

/-- Truncate a line at the first `//`. -/
def truncLineAtSlashes : List Char → List Char
  | [] => []
  | '/' :: '/' :: _ => []
  | c :: rest => c :: truncLineAtSlashes rest

/-- The second regex substitution: remove `//` line comments (multiline). -/
def removeJsComments (content : String) : String :=
  sIntercalate "\n"
    ((sSplitLines content).map (fun l => String.mk (truncLineAtSlashes l.data)))

/-- Scan for the closing brace balancing the opening brace the scan starts on;
returns the length of the balanced slice (Python tracks `json_end = i + 1`). -/
def braceEndIdx : List Char → Nat → Int → Option Nat
  | [], _, _ => none
  | c :: rest, pos, count =>
    if c = '\x7b' then braceEndIdx rest (pos + 1) (count + 1)
    else if c = '\x7d' then
      if count - 1 = 0 then some (pos + 1) else braceEndIdx rest (pos + 1) (count - 1)
    else braceEndIdx rest (pos + 1) count

/-- The brace-balanced JSON slice extraction: from the first opening brace to
its balancing close; when the braces never balance the whole content is used
(Python leaves `json_end == json_start`). -/
def extractJsonSlice (cs : List Char) (json_start : Nat) : List Char :=
  match braceEndIdx (cs.drop json_start) 0 0 with
  | some len => (cs.drop json_start).take len
  | none => cs

/-- A TOON-format test-case object as decoded from JSON; `none` models an
absent key and `Sum` the string-or-list shapes the parser tolerates. -/
structure ToonTcJson where
  t : Option String := none
  desc : Option String := none
  type : Option String := none
  prio : Option String := none
  steps : List String := []
  exp : Option String := none
  prereq : Option (Sum String (List String)) := none
deriving DecidableEq, Repr

/-- A standard-format test-case object as decoded from JSON. -/
structure StdTcJson where
  title : Option String := none
  description : Option String := none
  test_type : Option String := none
  priority : Option String := none
  test_steps : Option (List String) := none
  steps : List String := []
  expected_result : Option String := none
  prerequisites : Option (Sum String (List String)) := none
deriving DecidableEq, Repr

/-- Outcome of `json.loads` on the extracted slice, reduced to the two object
shapes the parser distinguishes: presence of the key "tcs" selects the TOON
path, otherwise `test_cases` (defaulting to the empty list) is used. -/
structure ParsedResponse where
  tcs : Option (List ToonTcJson) := none
  test_cases : Option (List StdTcJson) := none
deriving DecidableEq, Repr

/-- TOON abbreviation mapping for test types (unknown values fall back to
"positive", the default of `dict.get`). -/
def toonTypeMap (t : String) : String :=
  if t = "pos" then "positive"
  else if t = "neg" then "negative"
  else if t = "edge" then "edge_case"
  else if t = "sec" then "security"
  else if t = "perf" then "performance"
  else if t = "integ" then "integration"
  else "positive"

/-- TOON abbreviation mapping for priorities; an unmapped value is kept. -/
def toonPrioMap (p : String) : String :=
  if p = "Crit" then "Critical" else if p = "Med" then "Medium" else p

/-- Python `[step.strip() for step in steps if step.strip()]`. -/
def formatSteps (steps : List String) : List String :=
  (steps.filter (fun s => sTrim s ≠ "")).map sTrim

/-- Normalize a string-or-list prerequisites value to a list. -/
def normalizePrereq : Sum String (List String) → List String
  | .inl s => if s = "" then [] else [s]
  | .inr l => l

/-- Append a final period to a nonempty expected result (TOON path). -/
def toonExpected (e : String) : String :=
  if e ≠ "" ∧ sEndsWith e "." = false then e ++ "." else e

/-- Append a final period unconditionally when missing (standard path). -/
def stdExpected (e : String) : String :=
  if sEndsWith e "." = false then e ++ "." else e

/-- Model of `TestCaseExtractor._parse_toon_format`. -/
def parse_toon_format (tcs : List ToonTcJson) : List TestCase :=
  tcs.foldl
    (fun acc tc =>
      let title0 := tc.t.getD ""
      let description := tc.desc.getD ""
      let title :=
        if title0 = "" then
          (if description = "" then "Test Case " ++ toString (acc.length + 1) else description)
        else title0
      acc ++ [{ title := title
                description := description
                test_type := toonTypeMap (tc.type.getD "pos")
                test_steps := formatSteps tc.steps
                expected_result := toonExpected (tc.exp.getD "")
                preconditions := normalizePrereq (tc.prereq.getD (Sum.inl ""))
                priority := toonPrioMap (tc.prio.getD "Med") }])
    []

/-- Python `first_step.split(".", 1)[-1]`. -/
def afterFirstDot (s : String) : String :=
  match s.data.findIdx? (fun c => c = '.') with
  | some i => String.mk (s.data.drop (i + 1))
  | none => s

/-- Default title chain of `_parse_standard_format`:
`description.strip() or first_step.split(".", 1)[-1].strip() or "Validate User Story"`. -/
def stdDefaultTitle (description : String) (formatted_steps : List String) : String :=
  let d := sTrim description
  if d ≠ "" then d
  else
    let first_step := (formatted_steps.find? (fun s => s ≠ "")).getD ""
    let t := sTrim (afterFirstDot first_step)
    if t ≠ "" then t else "Validate User Story"

/-- Model of `TestCaseExtractor._parse_standard_format`. -/
def parse_standard_format (tcs : List StdTcJson) : List TestCase :=
  tcs.foldl
    (fun acc tc =>
      let steps :=
        match tc.test_steps with
        | some s => s
        | none => tc.steps
      let formatted_steps := formatSteps steps
      let title :=
        match tc.title with
        | some t => if t = "" then stdDefaultTitle (tc.description.getD "") formatted_steps else t
        | none => stdDefaultTitle (tc.description.getD "") formatted_steps
      acc ++ [{ title := title
                description := tc.description.getD ""
                test_type := tc.test_type.getD "positive"
                test_steps := formatted_steps
                expected_result := stdExpected (tc.expected_result.getD "")
                preconditions := normalizePrereq (tc.prerequisites.getD (Sum.inl ""))
                priority := tc.priority.getD "Medium" }])
    []

/-- Model of `TestCaseExtractor._parse_test_cases_response`.  The parameter
`jloads` stands for `json.loads` applied to the extracted slice: `none` models
a `JSONDecodeError`.  When the cleaned content contains no opening brace the
source falls back without ever calling `json.loads`. -/
def parse_test_cases_response (jloads : String → Option ParsedResponse)
    (response_content0 : String) : List TestCase :=
  let response_content := removeJsComments (fixRepeatPattern (stripCodeFences response_content0))
  let cs := response_content.data
  match List.findIdx? (fun c => c = '\x7b') cs with
  | none => fallback_parse_test_cases response_content
  | some json_start =>
    let json_content := String.mk (extractJsonSlice cs json_start)
    match jloads json_content with
    | some parsed =>
      match parsed.tcs with
      | some tcs => parse_toon_format tcs
      | none => parse_standard_format (parsed.test_cases.getD [])
    | none => fallback_parse_test_cases response_content

/-- The "Manual Validation Required" placeholder of `extract_test_cases`,
emitted only when parsing produced an empty list of test cases. -/
def manualValidationTestCase (parent_story_id : Option String) : TestCase :=
  { title := "Manual Validation Required"
    description := "Please manually create test cases for this user story"
    test_type := "positive"
    test_steps := ["1. Review user story", "2. Create appropriate test cases"]
    expected_result := "Test cases are created and validated."
    preconditions := ["User story is well-defined"]
    priority := "Medium"
    parent_story_id := parent_story_id }

/-- Result record of `extract_test_cases`. -/
structure TestCaseExtractionResult where
  story_id : String
  test_cases : List TestCase
  extraction_successful : Bool
  error_message : String := ""
deriving DecidableEq, Repr

/-- Model of the post-AI-call part of `TestCaseExtractor.extract_test_cases`:
the token record is saved with `success=True` before any parsing happens, the
response is parsed with fallback, an empty parse is patched with the
"Manual Validation Required" placeholder, and the result reports success. -/
def extract_test_cases (jloads : String → Option ParsedResponse)
    (toon_enabled : Bool) (model provider : String)
    (prompt_text response_content : String) (parent_story_id : Option String) :
    TestCaseExtractionResult × TokenUsageRecord :=
  let tokenRecord := record_usage_record "test_case_extraction" prompt_text response_content
    toon_enabled model provider true
  let test_cases0 := parse_test_cases_response jloads response_content
  let test_cases :=
    if test_cases0.isEmpty then [manualValidationTestCase parent_story_id] else test_cases0
  ({ story_id := parent_story_id.getD "unknown"
     test_cases := test_cases
     extraction_successful := true }, tokenRecord)

/-- Stand-in for `json.loads` on content that is not valid JSON: every call
fails. Used to close concrete counterexamples; on response texts without an
opening brace the source never reaches `json.loads` at all. -/
def jsonLoadsFails : String → Option ParsedResponse := fun _ => none

/-- Specification-side token estimate, following the claim's words:
`est(text) = max(1, len(text) / d)` with `d = 3` for JSON-heavy content
(a brace or bracket occurs) and `d = 4` otherwise. -/
def specEstimateTokens (text : String) : Nat :=
  max 1 (text.length / (if sContainsChar text '\x7b' ∨ sContainsChar text '[' then 3 else 4))

/-- Constant similarity oracle, used to instantiate reconciliation theorems at
concrete inputs. -/
def constRatio (q : ℚ) : String → String → ℚ := fun _ _ => q

/-! ## Theorems -/

/-- Sanity check of the SHA-256 model against the FIPS 180 test vector for "abc". -/
example : sha256Hex "abc" =
    "ba7816bf8f01cfea414140de5dae2223b00361a396177a9cb410ff61f20015ad" := by decide

/-- Sanity check of the SHA-256 model against the empty-message test vector. -/
example : sha256Hex "" =
    "e3b0c44298fc1c149afbf4c8996fb92427ae41e4649b934ca495991b7852b855" := by decide

/-- Claim C1, counterexample: two work items agreeing on title and description
but differing in state receive the same snapshot `content_hash` from
`detect_changes_in_epic`, refuting "different content_hash iff at least one of
title, description, state, priority, area, iteration differs". -/
theorem C1_counterexample :
    (detect_changes_in_epic
        { title := some "Checkout", description := some "Users purchase",
          state := some "New" }).content_hash =
      (detect_changes_in_epic
        { title := some "Checkout", description := some "Users purchase",
          state := some "Closed" }).content_hash ∧
    (detect_changes_in_epic
        { title := some "Checkout", description := some "Users purchase",
          state := some "New" }).state ≠
      (detect_changes_in_epic
        { title := some "Checkout", description := some "Users purchase",
          state := some "Closed" }).state :=
  ⟨rfl, by decide⟩

/-- Claim C1, amended: the snapshot's `content_hash` is the SHA-256 of
`title ++ description` alone, so work items agreeing on title and description
hash equally regardless of state, priority, area or iteration; the separate
monitor helper `_calculate_content_hash` does feed all six "|"-joined fields
into its digest, so snapshots agreeing on all six produce the same digest
input there. -/
theorem C1_content_hash_fields (f1 f2 : WorkItemFields) (s1 s2 : SnapshotDict)
    (ht : f1.title.getD "" = f2.title.getD "")
    (hd : f1.description.getD "" = f2.description.getD "")
    (h6 : s1.title.getD "" = s2.title.getD "" ∧
          s1.description.getD "" = s2.description.getD "" ∧
          s1.state.getD "" = s2.state.getD "" ∧
          s1.priority.getD "" = s2.priority.getD "" ∧
          s1.area_path.getD "" = s2.area_path.getD "" ∧
          s1.iteration_path.getD "" = s2.iteration_path.getD "") :
    (detect_changes_in_epic f1).content_hash = (detect_changes_in_epic f2).content_hash ∧
    (detect_changes_in_epic f1).content_hash =
      sha256Hex (f1.title.getD "" ++ f1.description.getD "") ∧
    calculate_content_hash_input s1 = calculate_content_hash_input s2 := by
  obtain ⟨h1, h2, h3, h4, h5, h6'⟩ := h6
  refine ⟨?_, rfl, ?_⟩
  · simp only [detect_changes_in_epic, ht, hd]
  · simp only [calculate_content_hash_input, h1, h2, h3, h4, h5, h6']

/-- Claim C1, witness for the amended theorem at concrete inputs. -/
theorem C1_content_hash_fields_witness :
    (detect_changes_in_epic
        { title := some "t", description := some "d", state := some "New" }).content_hash =
      (detect_changes_in_epic
        { title := some "t", description := some "d", state := some "Done" }).content_hash ∧
    (detect_changes_in_epic
        { title := some "t", description := some "d", state := some "New" }).content_hash =
      sha256Hex ("t" ++ "d") ∧
    calculate_content_hash_input { title := some "t" } =
      calculate_content_hash_input { title := some "t", priority := some "" } :=
  C1_content_hash_fields _ _ _ _ rfl rfl ⟨rfl, rfl, rfl, rfl, rfl, rfl⟩

section RatKernelEvalA

set_option allowUnsafeReducibility true
attribute [local semireducible] Rat.add Rat.mul Rat.inv Rat.sub Rat.ofScientific

/-- Claim C2: the significance scorer returns 1.0 when the previous snapshot
is missing; otherwise it sums, for each of title and description that differ,
`(1 - jaccard) * weight`, adds the state weight when the state differs, and
caps the sum at 1.0; with the default weights (0.8, 0.6, 0.2), an unchanged
title and state and a description edit of word-Jaccard 2/6 scores
`(1 - 1/3) * 0.6 = 0.4`. -/
theorem C2_change_significance :
    (∀ (cfg : EnhancedMonitorConfig) (cur : SnapshotDict),
      calculate_change_significance cfg cur none = 1) ∧
    (∀ (cfg : EnhancedMonitorConfig) (cur prev : SnapshotDict),
      calculate_change_significance cfg cur (some prev) =
        min ((if cur.title.getD "" ≠ prev.title.getD "" then
                (1 - calculate_text_similarity (cur.title.getD "") (prev.title.getD "")) *
                  cfg.title_change_weight
              else 0) +
             (if cur.description.getD "" ≠ prev.description.getD "" then
                (1 - calculate_text_similarity (cur.description.getD "") (prev.description.getD "")) *
                  cfg.description_change_weight
              else 0) +
             (if cur.state.getD "" ≠ prev.state.getD "" then cfg.state_change_weight else 0)) 1) ∧
    calculate_text_similarity "Users purchase items with credit card" "Users purchase" = 2 / 6 ∧
    calculate_change_significance {}
      { title := some "Checkout",
        description := some "Users purchase items with credit card", state := some "New" }
      (some { title := some "Checkout", description := some "Users purchase",
              state := some "New" }) = (1 - 1 / 3) * (0.6 : ℚ) := by
  refine ⟨fun cfg cur => rfl, fun cfg cur prev => ?_, by decide, by decide⟩
  simp only [calculate_change_significance]
  split_ifs <;> exact congrArg (fun x : ℚ => min x 1) (by ring)

end RatKernelEvalA

/-- Helper: the Jaccard branch is nonnegative. -/
theorem jaccardSimilarity_nonneg (w1 w2 : Finset String) :
    0 ≤ jaccardSimilarity w1 w2 := by
  unfold jaccardSimilarity
  split_ifs
  · norm_num
  · norm_num
  · positivity
  · norm_num

/-- Helper: the Jaccard branch is at most one. -/
theorem jaccardSimilarity_le_one (w1 w2 : Finset String) :
    jaccardSimilarity w1 w2 ≤ 1 := by
  unfold jaccardSimilarity
  split_ifs with h1 h2 h3
  · norm_num
  · norm_num
  · have hpos : (0 : ℚ) < ((w1 ∪ w2).card : ℚ) := by
      exact_mod_cast Finset.card_pos.mpr (Finset.nonempty_iff_ne_empty.mpr h3)
    rw [div_le_one hpos]
    exact_mod_cast Finset.card_le_card Finset.inter_subset_union
  · norm_num

/-- Helper: the Jaccard branch is symmetric. -/
theorem jaccardSimilarity_comm (w1 w2 : Finset String) :
    jaccardSimilarity w1 w2 = jaccardSimilarity w2 w1 := by
  unfold jaccardSimilarity
  by_cases h1 : w1 = ∅ <;> by_cases h2 : w2 = ∅ <;>
    simp [h1, h2, Finset.inter_comm, Finset.union_comm]

/-- Helper: the Jaccard branch of equal sets is one. -/
theorem jaccardSimilarity_self (w : Finset String) : jaccardSimilarity w w = 1 := by
  unfold jaccardSimilarity
  by_cases h : w = ∅
  · simp [h]
  · rw [if_neg (by simp [h]), if_neg (by simp [h])]
    simp only [Finset.inter_self, Finset.union_self]
    rw [if_pos h]
    have hpos : (0 : ℚ) < (w.card : ℚ) := by
      exact_mod_cast Finset.card_pos.mpr (Finset.nonempty_iff_ne_empty.mpr h)
    exact div_self hpos.ne'

/-- Helper: the text similarity is nonnegative. -/
theorem calculate_text_similarity_nonneg (t1 t2 : String) :
    0 ≤ calculate_text_similarity t1 t2 := by
  unfold calculate_text_similarity
  split_ifs
  · norm_num
  · norm_num
  · exact jaccardSimilarity_nonneg _ _

/-- Helper: the text similarity is at most one. -/
theorem calculate_text_similarity_le_one (t1 t2 : String) :
    calculate_text_similarity t1 t2 ≤ 1 := by
  unfold calculate_text_similarity
  split_ifs
  · norm_num
  · norm_num
  · exact jaccardSimilarity_le_one _ _

/-- Helper: the text similarity is symmetric. -/
theorem calculate_text_similarity_comm (t1 t2 : String) :
    calculate_text_similarity t1 t2 = calculate_text_similarity t2 t1 := by
  unfold calculate_text_similarity
  by_cases h1 : t1 = "" <;> by_cases h2 : t2 = "" <;>
    simp [h1, h2, jaccardSimilarity_comm (wordSet t1) (wordSet t2)]

/-- Helper: the text similarity of equal inputs is one. -/
theorem calculate_text_similarity_self (t : String) :
    calculate_text_similarity t t = 1 := by
  unfold calculate_text_similarity
  by_cases h : t = ""
  · simp [h]
  · simp [h, jaccardSimilarity_self]

/-- Claim C8: the word-level Jaccard similarity (lowercase, whitespace split)
lies in [0, 1], is symmetric, returns 1.0 for equal inputs and for two empty
inputs, and returns 0.0 when exactly one input is empty. -/
theorem C8_text_similarity (t1 t2 : String) :
    0 ≤ calculate_text_similarity t1 t2 ∧
    calculate_text_similarity t1 t2 ≤ 1 ∧
    calculate_text_similarity t1 t2 = calculate_text_similarity t2 t1 ∧
    calculate_text_similarity t1 t1 = 1 ∧
    calculate_text_similarity "" "" = 1 ∧
    (t1 = "" → t2 ≠ "" → calculate_text_similarity t1 t2 = 0) ∧
    (t1 ≠ "" → t2 = "" → calculate_text_similarity t1 t2 = 0) :=
  ⟨calculate_text_similarity_nonneg t1 t2,
   calculate_text_similarity_le_one t1 t2,
   calculate_text_similarity_comm t1 t2,
   calculate_text_similarity_self t1,
   calculate_text_similarity_self "",
   fun h1 h2 => by unfold calculate_text_similarity; simp [h1, h2],
   fun h1 h2 => by unfold calculate_text_similarity; simp [h1, h2]⟩

/-- Claim C8, witness at a concrete input with one empty side. -/
theorem C8_text_similarity_witness :
    calculate_text_similarity "" "alpha" = 0 ∧ 0 ≤ calculate_text_similarity "" "alpha" :=
  ⟨(C8_text_similarity "" "alpha").2.2.2.2.2.1 rfl (by decide),
   (C8_text_similarity "" "alpha").1⟩

/-- Claim C9: the snapshot dictionary built by `get_epic_snapshot` carries
only content_hash, last_modified, title and state — description, priority,
area and iteration are absent — so in the enhanced change-detection path both
descriptions read as empty and a description edit contributes 0: the
significance of two such snapshots is exactly the title term plus the state
term (capped at 1), leaving description changes detectable only through the
content hash, title or state. -/
theorem C9_snapshot_without_description (cfg : EnhancedMonitorConfig)
    (s1 s2 : RequirementSnapshot) :
    (get_epic_snapshot s1).description = none ∧
    (get_epic_snapshot s1).priority = none ∧
    (get_epic_snapshot s1).area_path = none ∧
    (get_epic_snapshot s1).iteration_path = none ∧
    (get_epic_snapshot s1).content_hash = some s1.content_hash ∧
    (get_epic_snapshot s1).last_modified = some s1.last_modified ∧
    (get_epic_snapshot s1).title = some s1.title ∧
    (get_epic_snapshot s1).state = some s1.state ∧
    calculate_change_significance cfg (get_epic_snapshot s2) (some (get_epic_snapshot s1)) =
      min ((if s2.title ≠ s1.title then
              (1 - calculate_text_similarity s2.title s1.title) * cfg.title_change_weight
            else 0) +
           (if s2.state ≠ s1.state then cfg.state_change_weight else 0)) 1 := by
  refine ⟨rfl, rfl, rfl, rfl, rfl, rfl, rfl, rfl, ?_⟩
  simp only [calculate_change_significance, get_epic_snapshot, Option.getD_some, ne_eq,
    not_true_eq_false, if_false, not_false_eq_true]
  split_ifs <;> exact congrArg (fun x : ℚ => min x 1) (by ring)

/-- Claim C6, counterexample: the empty text estimates to 0 tokens, while the
claimed formula `max(1, len(text) / d)` yields 1. -/
theorem C6_counterexample :
    estimate_tokens "" = 0 ∧ specEstimateTokens "" = 1 ∧
    estimate_tokens "" ≠ specEstimateTokens "" := by decide

/-- Claim C6, amended: for every nonempty text the token estimate equals
`max(1, len(text) / d)` with `d = 3` when the text contains a brace or bracket
and `d = 4` otherwise (the empty text estimates to 0); a record of a call with
a 400-character brace-free prompt and a 120-character response yields
prompt_tokens = 100, completion_tokens = 30, total_tokens = 130, and
tokens_saved = 0 when the compact prompt was not used. -/
theorem C6_estimate_tokens (text : String) (h : text ≠ "") :
    estimate_tokens text = specEstimateTokens text ∧
    (record_usage_record "test_case_extraction" (String.mk (List.replicate 400 'a'))
        (String.mk (List.replicate 120 'b')) false "gpt-4o-mini" "OPENAI" true).prompt_tokens
      = 100 ∧
    (record_usage_record "test_case_extraction" (String.mk (List.replicate 400 'a'))
        (String.mk (List.replicate 120 'b')) false "gpt-4o-mini" "OPENAI" true).completion_tokens
      = 30 ∧
    (record_usage_record "test_case_extraction" (String.mk (List.replicate 400 'a'))
        (String.mk (List.replicate 120 'b')) false "gpt-4o-mini" "OPENAI" true).total_tokens
      = 130 ∧
    (record_usage_record "test_case_extraction" (String.mk (List.replicate 400 'a'))
        (String.mk (List.replicate 120 'b')) false "gpt-4o-mini" "OPENAI" true).tokens_saved
      = 0 := by
  refine ⟨?_, by decide, by decide, by decide, by decide⟩
  unfold estimate_tokens specEstimateTokens
  rw [if_neg h]
  by_cases hb : sContainsChar text '\x7b' = true ∨ sContainsChar text '[' = true
  · rw [if_pos hb, if_pos hb]
  · rw [if_neg hb, if_neg hb]

/-- Claim C6, witness for the amended theorem at a concrete nonempty text. -/
theorem C6_estimate_tokens_witness :
    estimate_tokens "abcd" = specEstimateTokens "abcd" ∧
    (record_usage_record "test_case_extraction" (String.mk (List.replicate 400 'a'))
        (String.mk (List.replicate 120 'b')) false "gpt-4o-mini" "OPENAI" true).prompt_tokens
      = 100 :=
  ⟨(C6_estimate_tokens "abcd" (by decide)).1, (C6_estimate_tokens "abcd" (by decide)).2.1⟩

/-- Helper: both prices of any cost tier are nonnegative. -/
theorem findCostTier_nonneg (model : String) :
    0 ≤ (findCostTier model).1 ∧ 0 ≤ (findCostTier model).2 := by
  unfold findCostTier
  rcases h : TOKEN_COSTS.find? (fun t => strContains (sToLower model) t.1) with _ | t
  · simp only [h]
    norm_num
  · simp only [h]
    have ht := List.mem_of_find?_eq_some h
    fin_cases ht <;> norm_num

set_option maxHeartbeats 2000000 in
/-- Helper: every counter field of `_update_stats` other than the TOON average
is a function of the previous stats and the new record alone, each updated by
a nonnegative increment (and `total_calls` by exactly one). -/
theorem update_stats_counters (s : TokenUsageStats) (recs : List TokenUsageRecord)
    (r : TokenUsageRecord) :
    (update_stats s recs r).total_calls = s.total_calls + 1 ∧
    (update_stats s recs r).successful_calls
      = s.successful_calls + (if r.success then 1 else 0) ∧
    (update_stats s recs r).failed_calls
      = s.failed_calls + (if r.success then 0 else 1) ∧
    (update_stats s recs r).total_prompt_tokens = s.total_prompt_tokens + r.prompt_tokens ∧
    (update_stats s recs r).total_completion_tokens
      = s.total_completion_tokens + r.completion_tokens ∧
    (update_stats s recs r).total_tokens = s.total_tokens + r.total_tokens ∧
    (update_stats s recs r).total_tokens_saved = s.total_tokens_saved + r.tokens_saved ∧
    (update_stats s recs r).estimated_tokens_without_toon
      = s.estimated_tokens_without_toon + (r.estimated_standard_tokens + r.completion_tokens) ∧
    (update_stats s recs r).calls_with_toon
      = s.calls_with_toon + (if r.toon_enabled then 1 else 0) ∧
    (update_stats s recs r).calls_without_toon
      = s.calls_without_toon + (if r.toon_enabled then 0 else 1) ∧
    (update_stats s recs r).story_extractions
      = s.story_extractions + (if r.call_type = "story_extraction" then 1 else 0) ∧
    (update_stats s recs r).test_case_extractions
      = s.test_case_extractions +
        (if r.call_type = "story_extraction" then 0
         else if r.call_type = "test_case_extraction" then 1 else 0) ∧
    (update_stats s recs r).estimated_cost_usd
      = s.estimated_cost_usd +
        (((r.prompt_tokens : ℚ) / 1000) * (findCostTier r.model).1 +
         ((r.completion_tokens : ℚ) / 1000) * (findCostTier r.model).2) ∧
    (update_stats s recs r).estimated_cost_without_toon_usd
      = s.estimated_cost_without_toon_usd +
        (((r.estimated_standard_tokens : ℚ) / 1000) * (findCostTier r.model).1 +
         ((r.completion_tokens : ℚ) / 1000) * (findCostTier r.model).2) ∧
    (update_stats s recs r).estimated_savings_usd
      = s.estimated_savings_usd +
        (if r.toon_enabled ∧ r.tokens_saved > 0 then
          ((r.tokens_saved : ℚ) / 1000) * (findCostTier r.model).1
         else 0) := by
  simp only [update_stats, update_cost_estimates]
  split_ifs <;> simp_all

/-- Helper: the ring buffer never exceeds 1000 retained records. -/
theorem ringAppend_length_le (recs : List TokenUsageRecord) (r : TokenUsageRecord)
    (h : recs.length ≤ 1000) : (ringAppend recs r).length ≤ 1000 := by
  simp only [ringAppend]
  split_ifs with hgt
  · simp only [List.length_drop]
    omega
  · simp only [List.length_append, List.length_cons, List.length_nil] at hgt ⊢
    omega

/-- Claim C10: every aggregate counter in `TokenUsageStats` — total_calls,
success/failure counts, prompt/completion/total token sums, tokens saved,
per-call-type counts, TOON call counts, and the cost accumulators — is
updated cumulatively on each `record_usage` call and never decreases
(`total_calls` by exactly one); none of these counters reads the ring buffer,
so evicting the oldest of 1000 retained records changes no counter; and the
buffer stays at 1000 records or fewer while `total_calls` keeps counting
every call ever recorded. -/
theorem C10_stats_cumulative (st : TokenTrackerState)
    (call_type prompt_text response_text model provider : String)
    (toon_enabled success : Bool) :
    ((record_usage st call_type prompt_text response_text toon_enabled model provider success).stats =
      update_stats st.stats
        (ringAppend st.records (record_usage_record call_type prompt_text response_text toon_enabled model provider success))
        (record_usage_record call_type prompt_text response_text toon_enabled model provider success)) ∧
    (∀ (s : TokenUsageStats) (recs : List TokenUsageRecord) (r : TokenUsageRecord),
      (update_stats s recs r).total_calls = s.total_calls + 1 ∧
      s.successful_calls ≤ (update_stats s recs r).successful_calls ∧
      s.failed_calls ≤ (update_stats s recs r).failed_calls ∧
      s.total_prompt_tokens ≤ (update_stats s recs r).total_prompt_tokens ∧
      s.total_completion_tokens ≤ (update_stats s recs r).total_completion_tokens ∧
      s.total_tokens ≤ (update_stats s recs r).total_tokens ∧
      s.total_tokens_saved ≤ (update_stats s recs r).total_tokens_saved ∧
      s.estimated_tokens_without_toon ≤ (update_stats s recs r).estimated_tokens_without_toon ∧
      s.calls_with_toon ≤ (update_stats s recs r).calls_with_toon ∧
      s.calls_without_toon ≤ (update_stats s recs r).calls_without_toon ∧
      s.story_extractions ≤ (update_stats s recs r).story_extractions ∧
      s.test_case_extractions ≤ (update_stats s recs r).test_case_extractions ∧
      s.estimated_cost_usd ≤ (update_stats s recs r).estimated_cost_usd ∧
      s.estimated_cost_without_toon_usd ≤ (update_stats s recs r).estimated_cost_without_toon_usd ∧
      s.estimated_savings_usd ≤ (update_stats s recs r).estimated_savings_usd) ∧
    (∀ (s : TokenUsageStats) (recs1 recs2 : List TokenUsageRecord)
        (r : TokenUsageRecord),
      (update_stats s recs1 r).total_calls = (update_stats s recs2 r).total_calls ∧
      (update_stats s recs1 r).successful_calls = (update_stats s recs2 r).successful_calls ∧
      (update_stats s recs1 r).failed_calls = (update_stats s recs2 r).failed_calls ∧
      (update_stats s recs1 r).total_prompt_tokens = (update_stats s recs2 r).total_prompt_tokens ∧
      (update_stats s recs1 r).total_completion_tokens = (update_stats s recs2 r).total_completion_tokens ∧
      (update_stats s recs1 r).total_tokens = (update_stats s recs2 r).total_tokens ∧
      (update_stats s recs1 r).total_tokens_saved = (update_stats s recs2 r).total_tokens_saved ∧
      (update_stats s recs1 r).estimated_tokens_without_toon = (update_stats s recs2 r).estimated_tokens_without_toon ∧
      (update_stats s recs1 r).calls_with_toon = (update_stats s recs2 r).calls_with_toon ∧
      (update_stats s recs1 r).calls_without_toon = (update_stats s recs2 r).calls_without_toon ∧
      (update_stats s recs1 r).story_extractions = (update_stats s recs2 r).story_extractions ∧
      (update_stats s recs1 r).test_case_extractions = (update_stats s recs2 r).test_case_extractions ∧
      (update_stats s recs1 r).estimated_cost_usd = (update_stats s recs2 r).estimated_cost_usd ∧
      (update_stats s recs1 r).estimated_cost_without_toon_usd = (update_stats s recs2 r).estimated_cost_without_toon_usd ∧
      (update_stats s recs1 r).estimated_savings_usd = (update_stats s recs2 r).estimated_savings_usd) ∧
    (st.records.length ≤ 1000 →
      (record_usage st call_type prompt_text response_text toon_enabled model provider success).records.length ≤ 1000) := by
  refine ⟨rfl, fun s recs r => ?_, fun s recs1 recs2 r => ?_,
    fun h => ringAppend_length_le _ _ h⟩
  · obtain ⟨h1, h2, h3, h4, h5, h6, h7, h8, h9, h10, h11, h12, h13, h14, h15⟩ :=
      update_stats_counters s recs r
    have hq1 : (0 : ℚ) ≤ ((r.prompt_tokens : ℚ) / 1000) * (findCostTier r.model).1 +
        ((r.completion_tokens : ℚ) / 1000) * (findCostTier r.model).2 :=
      add_nonneg
        (mul_nonneg (by positivity) (findCostTier_nonneg r.model).1)
        (mul_nonneg (by positivity) (findCostTier_nonneg r.model).2)
    have hq2 : (0 : ℚ) ≤ ((r.estimated_standard_tokens : ℚ) / 1000) *
        (findCostTier r.model).1 +
        ((r.completion_tokens : ℚ) / 1000) * (findCostTier r.model).2 :=
      add_nonneg
        (mul_nonneg (by positivity) (findCostTier_nonneg r.model).1)
        (mul_nonneg (by positivity) (findCostTier_nonneg r.model).2)
    have hq3 : (0 : ℚ) ≤ (if r.toon_enabled ∧ r.tokens_saved > 0 then
        ((r.tokens_saved : ℚ) / 1000) * (findCostTier r.model).1 else 0) := by
      split_ifs
      · exact mul_nonneg (by positivity) (findCostTier_nonneg r.model).1
      · norm_num
    refine ⟨h1, ?_, ?_, ?_, ?_, ?_, ?_, ?_, ?_, ?_, ?_, ?_, ?_, ?_, ?_⟩
    · rw [h2]; exact Nat.le_add_right _ _
    · rw [h3]; exact Nat.le_add_right _ _
    · rw [h4]; exact Nat.le_add_right _ _
    · rw [h5]; exact Nat.le_add_right _ _
    · rw [h6]; exact Nat.le_add_right _ _
    · rw [h7]; exact Nat.le_add_right _ _
    · rw [h8]; exact Nat.le_add_right _ _
    · rw [h9]; exact Nat.le_add_right _ _
    · rw [h10]; exact Nat.le_add_right _ _
    · rw [h11]; exact Nat.le_add_right _ _
    · rw [h12]; exact Nat.le_add_right _ _
    · rw [h13]; exact le_add_of_nonneg_right hq1
    · rw [h14]; exact le_add_of_nonneg_right hq2
    · rw [h15]; exact le_add_of_nonneg_right hq3
  · obtain ⟨a1, a2, a3, a4, a5, a6, a7, a8, a9, a10, a11, a12, a13, a14, a15⟩ :=
      update_stats_counters s recs1 r
    obtain ⟨b1, b2, b3, b4, b5, b6, b7, b8, b9, b10, b11, b12, b13, b14, b15⟩ :=
      update_stats_counters s recs2 r
    exact ⟨a1.trans b1.symm, a2.trans b2.symm, a3.trans b3.symm, a4.trans b4.symm, a5.trans b5.symm, a6.trans b6.symm, a7.trans b7.symm, a8.trans b8.symm, a9.trans b9.symm, a10.trans b10.symm, a11.trans b11.symm, a12.trans b12.symm, a13.trans b13.symm, a14.trans b14.symm, a15.trans b15.symm⟩

/-- Claim C10, witness at the empty tracker state. -/
theorem C10_stats_cumulative_witness :
    (record_usage {} "story_extraction" "p" "q" false "gpt-4o-mini" "OPENAI"
        true).records.length ≤ 1000 ∧
    (update_stats {} []
        (record_usage_record "story_extraction" "p" "q" false "gpt-4o-mini" "OPENAI"
          true)).total_calls = ({} : TokenUsageStats).total_calls + 1 :=
  ⟨(C10_stats_cumulative {} "story_extraction" "p" "q" "gpt-4o-mini" "OPENAI" false
      true).2.2.2 (by decide),
   ((C10_stats_cumulative {} "story_extraction" "p" "q" "gpt-4o-mini" "OPENAI" false
      true).2.1 {} []
      (record_usage_record "story_extraction" "p" "q" false "gpt-4o-mini" "OPENAI" true)).1⟩


/-- Helper: for a root whose stories were already extracted, the enhanced gate
is exactly the enabled/cap/threshold check. -/
theorem should_extract_extracted_iff (cfg : EnhancedMonitorConfig)
    (st : EnhancedEpicState) (sig : ℚ) (h : st.stories_extracted = true) :
    should_extract_stories_enhanced cfg (some st) sig = true ↔
      (cfg.enable_change_based_extraction = true ∧
       st.change_extraction_count < cfg.max_changes_per_epic ∧
       cfg.change_significance_threshold ≤ sig) := by
  unfold should_extract_stories_enhanced
  cases he : cfg.enable_change_based_extraction
  · simp [he, h]
  · by_cases hc : st.change_extraction_count ≥ cfg.max_changes_per_epic
    · simp [he, h, hc, Nat.not_lt.mpr hc]
    · by_cases hs : cfg.change_significance_threshold ≤ sig
      · simp [he, h, hc, hs, Nat.not_le.mp hc]
      · simp [he, h, hc, hs]

/-- Claim C4, amended: for a root whose stories were already extracted, the
enhanced gate dispatches a change-based sync exactly when change-based
extraction is enabled, the count is below the per-root maximum, and the
significance meets the threshold; the extraction cooldown is not consulted on
this path — the gate does not even read the last sync timestamp (the cooldown
check lives only in the base monitor'\x73 `_should_extract_stories`). -/
theorem C4_enhanced_gate (cfg : EnhancedMonitorConfig) (st : EnhancedEpicState)
    (sig : ℚ) (h : st.stories_extracted = true) :
    (should_extract_stories_enhanced cfg (some st) sig = true ↔
      (cfg.enable_change_based_extraction = true ∧
       st.change_extraction_count < cfg.max_changes_per_epic ∧
       cfg.change_significance_threshold ≤ sig)) ∧
    (∀ ts : Option ℚ,
      should_extract_stories_enhanced cfg
          (some { st with last_sync_timestamp := ts }) sig =
        should_extract_stories_enhanced cfg (some st) sig) :=
  ⟨should_extract_extracted_iff cfg st sig h, fun ts => rfl⟩

/-- Helper: one gated scheduled check preserves the counting invariant
(count within the cap, and a zero count while no stories were extracted). -/
theorem check_op_preserves_bound (cfg : EnhancedMonitorConfig) (s : EnhancedEpicState)
    (hmax : 1 ≤ cfg.max_changes_per_epic)
    (hinv : s.change_extraction_count ≤ cfg.max_changes_per_epic ∧
            (s.stories_extracted = false → s.change_extraction_count = 0))
    (hc : Bool) (sig : ℚ) (o : SyncOutcome) :
    (run_epic_op cfg s (.check hc sig o)).change_extraction_count ≤
        cfg.max_changes_per_epic ∧
    ((run_epic_op cfg s (.check hc sig o)).stories_extracted = false →
      (run_epic_op cfg s (.check hc sig o)).change_extraction_count = 0) := by
  simp only [run_epic_op]
  split_ifs with hgate
  · have hgate2 : should_extract_stories_enhanced cfg (some s) sig = true := by
      cases hgb : should_extract_stories_enhanced cfg (some s) sig
      · rw [hgb, Bool.and_false] at hgate
        cases hgate
      · rfl
    by_cases hsync : o.sync_successful = true ∧ o.made_changes = true
    · have hs1 : (sync_epic_enhanced s true o).change_extraction_count =
          s.change_extraction_count + 1 := by
        unfold sync_epic_enhanced
        rw [if_pos hsync]
        rfl
      have hs2 : (sync_epic_enhanced s true o).stories_extracted = true := by
        unfold sync_epic_enhanced
        rw [if_pos hsync]
      refine ⟨?_, fun hfalse => ?_⟩
      · rw [hs1]
        cases hse : s.stories_extracted
        · have h0 := hinv.2 hse
          omega
        · have hlt := ((should_extract_extracted_iff cfg s sig hse).mp hgate2).2.1
          omega
      · rw [hs2] at hfalse
        cases hfalse
    · have hs0 : sync_epic_enhanced s true o = s := by
        unfold sync_epic_enhanced
        rw [if_neg hsync]
      rw [hs0]
      exact hinv
  · exact hinv

/-- Claim C5, amended: starting from a freshly created state, a sequence of
scheduled checks keeps `change_extraction_count` at or below
`max_changes_per_epic` (assuming the cap is at least one), and the gate
refuses to dispatch once the cap is reached; manual force re-extraction is
excluded because it dispatches without any bound check. -/
theorem C5_count_bound (cfg : EnhancedMonitorConfig) (s0 : EnhancedEpicState)
    (ops : List EpicOp) (hmax : 1 ≤ cfg.max_changes_per_epic)
    (hinv : s0.change_extraction_count ≤ cfg.max_changes_per_epic ∧
            (s0.stories_extracted = false → s0.change_extraction_count = 0))
    (hops : ∀ op ∈ ops, op.isCheck = true) :
    (run_epic_ops cfg s0 ops).change_extraction_count ≤ cfg.max_changes_per_epic ∧
    (∀ (st : EnhancedEpicState) (sig : ℚ), st.stories_extracted = true →
      cfg.max_changes_per_epic ≤ st.change_extraction_count →
      should_extract_stories_enhanced cfg (some st) sig = false) := by
  constructor
  · induction ops generalizing s0 with
    | nil => exact hinv.1
    | cons op rest ih =>
      cases op with
      | check hc sig o =>
        exact ih (run_epic_op cfg s0 (.check hc sig o))
          (check_op_preserves_bound cfg s0 hmax hinv hc sig o)
          (fun op hop => hops op (List.mem_cons_of_mem _ hop))
      | force o =>
        have hbad := hops _ (List.mem_cons_self _ _)
        simp [EpicOp.isCheck] at hbad
  · intro st sig hse hge
    cases hb : should_extract_stories_enhanced cfg (some st) sig
    · rfl
    · have hlt := ((should_extract_extracted_iff cfg st sig hse).mp hb).2.1
      omega

section RatKernelEvalB

set_option allowUnsafeReducibility true
attribute [local semireducible] Rat.add Rat.mul Rat.inv Rat.sub Rat.ofScientific

/-- Claim C4, counterexample: with change-based extraction enabled, a
significant change and a count under the cap, the enhanced gate dispatches
although the 24-hour cooldown has not elapsed (the last sync happened at the
current instant): the cooldown is never consulted on the enhanced path. -/
theorem C4_counterexample :
    should_extract_stories_enhanced {}
      (some { stories_extracted := true, change_extraction_count := 0, processed := true,
              last_sync_timestamp := some 0 }) 0.5 = true ∧
    check_cooldown_period
      (some { stories_extracted := true, change_extraction_count := 0, processed := true,
              last_sync_timestamp := some 0 }) 0 24 = false := by decide

/-- Claim C4, witness for the amended theorem at a concrete state. -/
theorem C4_enhanced_gate_witness :
    should_extract_stories_enhanced {}
      (some { stories_extracted := true, change_extraction_count := 1, processed := true,
              last_sync_timestamp := none }) 0.4 = true :=
  (C4_enhanced_gate {}
    { stories_extracted := true, change_extraction_count := 1, processed := true,
      last_sync_timestamp := none } 0.4 rfl).1.mpr ⟨rfl, by decide, by decide⟩

/-- Claim C5, counterexample: one scheduled change-based sync followed by one
manual force re-extraction drives `change_extraction_count` to 2 under
`max_changes_per_epic = 1` — the force path dispatches with no bound check, so
the count exceeds the per-root maximum. -/
theorem C5_counterexample :
    (run_epic_ops { max_changes_per_epic := 1 } {}
        [.check true 1 ⟨true, true⟩, .force ⟨true, true⟩]).change_extraction_count = 2 ∧
    ({ max_changes_per_epic := 1 } : EnhancedMonitorConfig).max_changes_per_epic < 2 := by
  exact ⟨by decide, by decide⟩

/-- Claim C5, witness for the amended theorem at a concrete trace. -/
theorem C5_count_bound_witness :
    (run_epic_ops {} {} [.check true 1 ⟨true, true⟩]).change_extraction_count ≤
      ({} : EnhancedMonitorConfig).max_changes_per_epic :=
  (C5_count_bound {} {} [.check true 1 ⟨true, true⟩] (by decide)
    ⟨by decide, fun _ => rfl⟩ (by decide)).1

end RatKernelEvalB

/-- Helper: a proposed story whose best remaining title similarity does not
exceed 0.8 is marked as a create and leaves the candidate map untouched. -/
theorem analyzeGo_cons_create (ratio : String → String → ℚ)
    (m : List (String × ExistingUserStory)) (p : ProposedStory)
    (rest : List ProposedStory)
    (hle : (findBestMatch ratio p.heading m).1 = none ∨
           (findBestMatch ratio p.heading m).2 ≤ 0.8) :
    analyzeGo ratio m (p :: rest) =
      { analyzeGo ratio m rest with
        stories_to_create := p :: (analyzeGo ratio m rest).stories_to_create } := by
  rcases hbm : findBestMatch ratio p.heading m with ⟨ob, s⟩
  cases ob with
  | none => simp only [analyzeGo, hbm]
  | some e =>
    rcases hle with hnone | hs
    · rw [hbm] at hnone
      cases hnone
    · rw [hbm] at hs
      simp only [analyzeGo, hbm]
      rw [if_neg (not_lt.mpr hs)]

/-- Helper: a proposed story whose best remaining match exceeds title
similarity 0.8 becomes an update (content similarity below 0.9) or an
unchanged entry (otherwise), and in either case the matched entry is removed
from the candidate map before the rest of the loop runs. -/
theorem analyzeGo_cons_match (ratio : String → String → ℚ)
    (m : List (String × ExistingUserStory)) (p : ProposedStory)
    (rest : List ProposedStory) (e : ExistingUserStory) (s : ℚ)
    (hbm : findBestMatch ratio p.heading m = (some e, s)) (hgt : (0.8 : ℚ) < s) :
    analyzeGo ratio m (p :: rest) =
      (if ratio (sToLower (existingContent e)) (sToLower (newContent p)) < 0.9 then
        { analyzeGo ratio (dictErase m e.title) rest with
          stories_to_update :=
            (e, p) :: (analyzeGo ratio (dictErase m e.title) rest).stories_to_update }
       else
        { analyzeGo ratio (dictErase m e.title) rest with
          unchanged_matched :=
            e :: (analyzeGo ratio (dictErase m e.title) rest).unchanged_matched }) := by
  simp only [analyzeGo, hbm]
  rw [if_pos hgt]

/-- Helper: a best match produced by the scan comes from the map. -/
theorem bestMatchStep_foldl_mem (ratio : String → String → ℚ) (heading : String)
    (m : List (String × ExistingUserStory)) :
    ∀ (init : Option ExistingUserStory × ℚ) (e : ExistingUserStory),
      (m.foldl (bestMatchStep ratio heading) init).1 = some e →
      init.1 = some e ∨ ∃ k, (k, e) ∈ m := by
  induction m with
  | nil => exact fun init e h => Or.inl h
  | cons q rest ih =>
    intro init e h
    rcases ih (bestMatchStep ratio heading init q) e h with hstep | ⟨k, hk⟩
    · simp only [bestMatchStep] at hstep
      split_ifs at hstep with hgt
      · refine Or.inr ⟨q.1, ?_⟩
        have he : q.2 = e := Option.some.inj hstep
        rw [← he]
        exact List.mem_cons_self _ _
      · exact Or.inl hstep
    · exact Or.inr ⟨k, List.mem_cons_of_mem _ hk⟩

/-- Helper: the best match of `findBestMatch` is a value of the map. -/
theorem findBestMatch_mem (ratio : String → String → ℚ) (heading : String)
    (m : List (String × ExistingUserStory)) (e : ExistingUserStory) (s : ℚ)
    (hbm : findBestMatch ratio heading m = (some e, s)) : ∃ k, (k, e) ∈ m := by
  have h1 : (findBestMatch ratio heading m).1 = some e := by rw [hbm]
  unfold findBestMatch at h1
  rcases bestMatchStep_foldl_mem ratio heading m (none, 0) e h1 with h | h
  · cases h
  · exact h

/-- Helper: erasing a present key from a map with pairwise-distinct keys
removes exactly that entry, up to permutation of the values. -/
theorem dictErase_perm (m : List (String × ExistingUserStory)) (k : String)
    (v : ExistingUserStory) (hmem : (k, v) ∈ m) (hnd : (m.map Prod.fst).Nodup) :
    (m.map Prod.snd).Perm (v :: (dictErase m k).map Prod.snd) := by
  induction m with
  | nil => cases hmem
  | cons q rest ih =>
    rw [List.map_cons, List.nodup_cons] at hnd
    rcases List.mem_cons.mp hmem with heq | hmem2
    · have hq1 : q.1 = k := by rw [← heq]
      have hq2 : q.2 = v := by rw [← heq]
      have hrest : dictErase rest k = rest := by
        apply List.filter_eq_self.mpr
        intro p hp
        have hpmem : p.1 ∈ rest.map Prod.fst := List.mem_map_of_mem Prod.fst hp
        have hpk : p.1 ≠ k := fun hpk => hnd.1 (by rw [hq1, ← hpk]; exact hpmem)
        simpa using hpk
      have herase : dictErase (q :: rest) k = rest := by
        unfold dictErase
        rw [List.filter_cons, if_neg (by simp [hq1])]
        exact hrest
      rw [herase, List.map_cons, hq2]
    · have hq1k : q.1 ≠ k := by
        intro hqk
        exact hnd.1 (by rw [hqk]; exact List.mem_map_of_mem Prod.fst hmem2)
      have herase : dictErase (q :: rest) k = q :: dictErase rest k := by
        unfold dictErase
        rw [List.filter_cons, if_pos (by simpa using hq1k)]
      rw [herase, List.map_cons, List.map_cons]
      exact ((ih hmem2 hnd.2).cons q.2).trans (List.Perm.swap v q.2 _)

/-- Helper: folding Python dict insertion over stories with pairwise-distinct
titles that are all fresh for the accumulator appends the `(title, story)`
pairs in order. -/
theorem existingByTitle_go (l : List ExistingUserStory) :
    ∀ (acc : List (String × ExistingUserStory)),
      (∀ e ∈ l, e.title ∉ acc.map Prod.fst) →
      (l.map ExistingUserStory.title).Nodup →
      l.foldl (fun m s => dictInsert m s.title s) acc =
        acc ++ l.map (fun e => (e.title, e)) := by
  induction l with
  | nil =>
    intro acc _ _
    simp
  | cons s rest ih =>
    intro acc hfresh hnd
    rw [List.map_cons, List.nodup_cons] at hnd
    have hnotin : s.title ∉ acc.map Prod.fst := hfresh s (List.mem_cons_self _ _)
    have hany : acc.any (fun q => q.1 = s.title) = false := by
      rw [List.any_eq_false]
      intro q hq
      simp only [decide_eq_true_eq]
      intro hqs
      exact hnotin (hqs ▸ List.mem_map_of_mem Prod.fst hq)
    have hins : dictInsert acc s.title s = acc ++ [(s.title, s)] := by
      unfold dictInsert
      rw [if_neg (by simp [hany])]
    have hfresh' : ∀ e ∈ rest, e.title ∉ (acc ++ [(s.title, s)]).map Prod.fst := by
      intro e he
      rw [List.map_append]
      intro hmem
      rcases List.mem_append.mp hmem with hina | hins1
      · exact hfresh e (List.mem_cons_of_mem _ he) hina
      · have he2 : e.title = s.title := by simpa using hins1
        exact hnd.1 (he2 ▸ List.mem_map_of_mem ExistingUserStory.title he)
    simp only [List.foldl_cons]
    rw [hins, ih (acc ++ [(s.title, s)]) hfresh' hnd.2]
    simp

/-- Helper: with pairwise-distinct titles, the Python title dict lists the
`(title, story)` pairs in story order. -/
theorem existingByTitle_eq (existing : List ExistingUserStory)
    (hnd : (existing.map ExistingUserStory.title).Nodup) :
    existingByTitle existing = existing.map (fun e => (e.title, e)) := by
  have h := existingByTitle_go existing [] (by simp) hnd
  simpa [existingByTitle] using h

/-- Helper: the reconciliation loop conserves the candidate map: the matched
updates, the matched unchanged entries and the untouched remainder are a
permutation of the map values. -/
theorem analyzeGo_perm (ratio : String → String → ℚ) :
    ∀ (new : List ProposedStory) (m : List (String × ExistingUserStory)),
      (∀ q ∈ m, q.1 = q.2.title) → (m.map Prod.fst).Nodup →
      ((analyzeGo ratio m new).stories_to_update.map Prod.fst ++
        (analyzeGo ratio m new).unchanged_matched ++
        (analyzeGo ratio m new).remaining.map Prod.snd).Perm (m.map Prod.snd) := by
  intro new
  induction new with
  | nil =>
    intro m _ _
    simp [analyzeGo]
  | cons p rest ih =>
    intro m hinv hnd
    rcases hbm : findBestMatch ratio p.heading m with ⟨ob, s⟩
    cases ob with
    | none =>
      rw [analyzeGo_cons_create ratio m p rest (Or.inl (by rw [hbm]))]
      exact ih m hinv hnd
    | some e =>
      by_cases hgt : (0.8 : ℚ) < s
      · obtain ⟨k, hkmem⟩ := findBestMatch_mem ratio p.heading m e s hbm
        have hk : k = e.title := hinv (k, e) hkmem
        rw [hk] at hkmem
        have hperm : (m.map Prod.snd).Perm (e :: (dictErase m e.title).map Prod.snd) :=
          dictErase_perm m e.title e hkmem hnd
        have hsub : List.Sublist ((dictErase m e.title).map Prod.fst) (m.map Prod.fst) :=
          (List.filter_sublist m).map Prod.fst
        have hnd' : ((dictErase m e.title).map Prod.fst).Nodup := hnd.sublist hsub
        have hinv' : ∀ q ∈ dictErase m e.title, q.1 = q.2.title := fun q hq =>
          hinv q (List.mem_of_mem_filter hq)
        have ihe := ih (dictErase m e.title) hinv' hnd'
        rw [analyzeGo_cons_match ratio m p rest e s hbm hgt]
        split_ifs with hcs
        · refine List.Perm.trans ?_ hperm.symm
          simp only [List.map_cons, List.cons_append]
          exact ihe.cons e
        · refine List.Perm.trans ?_ hperm.symm
          rw [List.append_assoc, List.cons_append]
          refine List.Perm.trans List.perm_middle ?_
          rw [← List.append_assoc]
          exact ihe.cons e
      · rw [analyzeGo_cons_create ratio m p rest
            (Or.inr (by rw [hbm]; exact not_lt.mp hgt))]
        exact ih m hinv hnd

/-- Helper: at the `_analyze_story_changes` interface, updates plus unchanged
stories are a permutation of the existing children whenever titles are
pairwise distinct — no existing child is ever dropped. -/
theorem analyze_story_changes_perm (ratio : String → String → ℚ)
    (existing : List ExistingUserStory) (new : List ProposedStory)
    (hnd : (existing.map ExistingUserStory.title).Nodup) :
    ((analyze_story_changes ratio existing new).2.1.map Prod.fst ++
      (analyze_story_changes ratio existing new).2.2).Perm existing := by
  have hmap : existingByTitle existing = existing.map (fun e => (e.title, e)) :=
    existingByTitle_eq existing hnd
  have hinv : ∀ q ∈ existingByTitle existing, q.1 = q.2.title := by
    rw [hmap]
    intro q hq
    rcases List.mem_map.mp hq with ⟨e, _, rfl⟩
    rfl
  have hndk : ((existingByTitle existing).map Prod.fst).Nodup := by
    rw [hmap, List.map_map]
    simpa [Function.comp_def] using hnd
  have h := analyzeGo_perm ratio new (existingByTitle existing) hinv hndk
  have hsnd : (existingByTitle existing).map Prod.snd = existing := by
    rw [hmap, List.map_map]
    simp [Function.comp_def]
  rw [hsnd] at h
  unfold analyze_story_changes
  simpa [List.append_assoc] using h

/-- Helper: scenario with one existing child and two proposed stories with
the same heading — title similarity above 0.8 and content similarity below
0.9 make the first an update and consume the map, so the second is a create
and no child is listed unchanged. -/
theorem analyze_pair_scenario (ratio : String → String → ℚ)
    (e : ExistingUserStory) (p1 p2 : ProposedStory)
    (h1 : (0.8 : ℚ) < ratio (sToLower p1.heading) (sToLower e.title))
    (h2 : ratio (sToLower (existingContent e)) (sToLower (newContent p1)) < 0.9) :
    analyze_story_changes ratio [e] [p1, p2] = ([p2], [(e, p1)], []) := by
  have hsim0 : (0 : ℚ) < ratio (sToLower p1.heading) (sToLower e.title) :=
    lt_trans (by norm_num) h1
  have hbm : findBestMatch ratio p1.heading [(e.title, e)] =
      (some e, ratio (sToLower p1.heading) (sToLower e.title)) := by
    simp only [findBestMatch, List.foldl_cons, List.foldl_nil, bestMatchStep]
    rw [if_pos hsim0]
  have herase : dictErase [(e.title, e)] e.title = [] := by
    simp [dictErase]
  have hbt : existingByTitle [e] = [(e.title, e)] := rfl
  unfold analyze_story_changes
  rw [hbt, analyzeGo_cons_match ratio [(e.title, e)] p1 [p2] e
        (ratio (sToLower p1.heading) (sToLower e.title)) hbm h1,
      if_pos h2, herase,
      analyzeGo_cons_create ratio [] p2 [] (Or.inl rfl)]
  rfl

/-- C3: the reconciler marks a proposed story as create when no remaining
entry has title similarity above 0.8; when the best remaining match exceeds
0.8 it yields an update (content similarity below 0.9) or an unchanged entry
(otherwise) and consumes the matched entry; with pairwise-distinct titles
every existing child ends up exactly once among updates and unchanged —
none is deleted; and a second proposed story with the same heading as an
already-consumed match is a create, as in the one-child two-proposal
scenario. -/
theorem C3_reconciler (ratio : String → String → ℚ) :
    (∀ (m : List (String × ExistingUserStory)) (p : ProposedStory)
        (rest : List ProposedStory),
      ((findBestMatch ratio p.heading m).1 = none ∨
        (findBestMatch ratio p.heading m).2 ≤ 0.8) →
      analyzeGo ratio m (p :: rest) =
        { analyzeGo ratio m rest with
          stories_to_create := p :: (analyzeGo ratio m rest).stories_to_create }) ∧
    (∀ (m : List (String × ExistingUserStory)) (p : ProposedStory)
        (rest : List ProposedStory) (e : ExistingUserStory) (s : ℚ),
      findBestMatch ratio p.heading m = (some e, s) → (0.8 : ℚ) < s →
      analyzeGo ratio m (p :: rest) =
        (if ratio (sToLower (existingContent e)) (sToLower (newContent p)) < 0.9 then
          { analyzeGo ratio (dictErase m e.title) rest with
            stories_to_update :=
              (e, p) :: (analyzeGo ratio (dictErase m e.title) rest).stories_to_update }
         else
          { analyzeGo ratio (dictErase m e.title) rest with
            unchanged_matched :=
              e :: (analyzeGo ratio (dictErase m e.title) rest).unchanged_matched })) ∧
    (∀ (existing : List ExistingUserStory) (new : List ProposedStory),
      (existing.map ExistingUserStory.title).Nodup →
      ((analyze_story_changes ratio existing new).2.1.map Prod.fst ++
        (analyze_story_changes ratio existing new).2.2).Perm existing) ∧
    (∀ (e : ExistingUserStory) (p1 p2 : ProposedStory),
      (0.8 : ℚ) < ratio (sToLower p1.heading) (sToLower e.title) →
      ratio (sToLower (existingContent e)) (sToLower (newContent p1)) < 0.9 →
      analyze_story_changes ratio [e] [p1, p2] = ([p2], [(e, p1)], [])) :=
  ⟨fun m p rest hle => analyzeGo_cons_create ratio m p rest hle,
   fun m p rest e s hbm hgt => analyzeGo_cons_match ratio m p rest e s hbm hgt,
   fun existing new hnd => analyze_story_changes_perm ratio existing new hnd,
   fun e p1 p2 h1 h2 => analyze_pair_scenario ratio e p1 p2 h1 h2⟩

section RatKernelEvalC

set_option allowUnsafeReducibility true

attribute [local semireducible] Rat.add Rat.mul Rat.inv Rat.sub Rat.ofScientific

/-- Witness for C3: with a constant similarity oracle at 17/20, one existing
child titled Login and two proposed Login stories, the first proposal is an
update of the child and the second is a create, with no unchanged stories. -/
theorem C3_reconciler_witness :
    analyze_story_changes (constRatio (17/20)) [⟨1, "Login", "old body"⟩]
        [⟨"Login", "new body", []⟩, ⟨"Login", "second body", []⟩] =
      ([⟨"Login", "second body", []⟩],
       [(⟨1, "Login", "old body"⟩, ⟨"Login", "new body", []⟩)], []) :=
  (C3_reconciler (constRatio (17/20))).2.2.2 ⟨1, "Login", "old body"⟩
    ⟨"Login", "new body", []⟩ ⟨"Login", "second body", []⟩ (by decide) (by decide)

end RatKernelEvalC

/-- Helper: when `json.loads` fails on every input, `_parse_test_cases_response`
returns the fallback parse of the cleaned response content. -/
theorem parse_response_fallback (jloads : String → Option ParsedResponse)
    (hfail : ∀ s, jloads s = none) (c : String) :
    parse_test_cases_response jloads c =
      fallback_parse_test_cases (removeJsComments (fixRepeatPattern (stripCodeFences c))) := by
  simp only [parse_test_cases_response, hfail]
  cases List.findIdx? (fun ch => ch = '\x7b')
      (removeJsComments (fixRepeatPattern (stripCodeFences c))).data with
  | none => rfl
  | some j => rfl

/-- Helper: `_fallback_parse_test_cases` never returns an empty list — its
third strategy emits one generic test case. -/
theorem fallback_parse_ne_nil (c : String) : fallback_parse_test_cases c ≠ [] := by
  simp only [fallback_parse_test_cases]
  split_ifs with h1 h2
  · rcases htl : findTitleMatches c with _ | ⟨t, ts⟩
    · rw [htl] at h1
      exact absurd rfl h1
    · simp [List.take_succ_cons]
  · exact h2
  · simp

/-- Helper: when both text strategies come up empty, the fallback is exactly
the one generic test case of strategy 3. -/
theorem fallback_parse_generic (c : String) (h1 : findTitleMatches c = [])
    (h2 : fallbackStrategy2 c = []) :
    fallback_parse_test_cases c = [genericFallbackTestCase] := by
  simp [fallback_parse_test_cases, h1, h2]

/-- C7 (amended): when the generator's output cannot be parsed as JSON the
worker falls back to the heuristic text parser instead of failing; the
fallback never extracts zero candidates — when both text strategies are empty
it emits exactly one generic test case titled "Validate User Story
Functionality" (not "Manual Validation Required") — and the extraction
proceeds with the call's token record saved with success = true. -/
theorem C7_parse_fallback (jloads : String → Option ParsedResponse)
    (hfail : ∀ s, jloads s = none) :
    (∀ c, parse_test_cases_response jloads c =
        fallback_parse_test_cases (removeJsComments (fixRepeatPattern (stripCodeFences c)))) ∧
    (∀ c, fallback_parse_test_cases c ≠ []) ∧
    (∀ c, findTitleMatches c = [] → fallbackStrategy2 c = [] →
        fallback_parse_test_cases c = [genericFallbackTestCase]) ∧
    genericFallbackTestCase.title = "Validate User Story Functionality" ∧
    (∀ (toon_enabled : Bool) (model provider prompt_text response_content : String)
        (parent_story_id : Option String),
      (extract_test_cases jloads toon_enabled model provider prompt_text
          response_content parent_story_id).1.extraction_successful = true ∧
      (extract_test_cases jloads toon_enabled model provider prompt_text
          response_content parent_story_id).2.success = true ∧
      (extract_test_cases jloads toon_enabled model provider prompt_text
          response_content parent_story_id).1.test_cases =
        parse_test_cases_response jloads response_content ∧
      parse_test_cases_response jloads response_content ≠ []) := by
  refine ⟨parse_response_fallback jloads hfail, fallback_parse_ne_nil,
    fallback_parse_generic, rfl, ?_⟩
  intro toon_enabled model provider prompt_text response_content parent_story_id
  have hne : parse_test_cases_response jloads response_content ≠ [] := by
    rw [parse_response_fallback jloads hfail response_content]
    exact fallback_parse_ne_nil _
  refine ⟨rfl, rfl, ?_, hne⟩
  simp only [extract_test_cases]
  rw [if_neg (by simpa [List.isEmpty_iff] using hne)]

/-- Witness for C7: the all-failing `json.loads` satisfies the hypothesis, and
on the unparseable response "not json" the parser returns the fallback parse
of the cleaned content. -/
theorem C7_parse_fallback_witness :
    parse_test_cases_response jsonLoadsFails "not json" =
      fallback_parse_test_cases
        (removeJsComments (fixRepeatPattern (stripCodeFences "not json"))) :=
  (C7_parse_fallback jsonLoadsFails (fun _ => rfl)).1 "not json"

/-- Counterexample for C7: on the unparseable response "not json" both text
strategies are empty, yet the extractor produces the generic test case titled
"Validate User Story Functionality" — not a placeholder titled "Manual
Validation Required" — and the token record is saved with success = true,
not false, contradicting the claim. -/
theorem C7_counterexample :
    (extract_test_cases jsonLoadsFails false "gpt-4" "openai" "p" "not json"
        none).1.test_cases = [genericFallbackTestCase] ∧
    genericFallbackTestCase.title = "Validate User Story Functionality" ∧
    manualValidationTestCase none ∉
      (extract_test_cases jsonLoadsFails false "gpt-4" "openai" "p" "not json"
        none).1.test_cases ∧
    (extract_test_cases jsonLoadsFails false "gpt-4" "openai" "p" "not json"
        none).2.success = true := by
  refine ⟨by decide, rfl, by decide, rfl⟩

end Stax
